import Mathlib

/-!
Shallow embedding of the alien4cloud-python workflow engine
(src/alien4cloud/core/workflow/state.py, executor.py, database.py,
src/alien4cloud/cloud/config.py, factory.py and
src/alien4cloud/cloud/providers/mock/provider.py), with theorems
settling the specification claims about it.

Modelling conventions:
* Python datetime values are modelled as abstract clock ticks (Nat);
  datetime.now() is an explicit now parameter threaded by callers, and
  isoformat/fromisoformat (mutually inverse on datetimes) are modelled as
  the identity embedding of a tick into the value domain.
* Python dicts are association lists (Dct) with Python's update-in-place /
  append-if-new assignment semantics; heterogeneous dict values (Any) are
  the inductive PyVal.
* async code in the source awaits every spawned step task; the interpreter
  runs the steps of one dispatch batch sequentially (one linearization of
  the asyncio.gather join) and propagates the first raised exception after
  the batch, exactly as the dispatch loop observes it.
* Fallible Python code (raising) is modelled with Option/Except; raised
  exceptions carry their str(e) message.
-/

set_option linter.unusedVariables false

deriving instance DecidableEq for Except

namespace A4C

mutual
/-- Heterogeneous Python values (the Any type of the source's dicts). -/
inductive PyVal where
  | vNone : PyVal
  | vBool : Bool → PyVal
  | vInt : Int → PyVal
  | vStr : String → PyVal
  | vList : PyList → PyVal
  | vDict : PyFields → PyVal
  deriving Repr
/-- A Python list of values. -/
inductive PyList where
  | nil : PyList
  | cons : PyVal → PyList → PyList
  deriving Repr
/-- The entries of a Python dict value, in insertion order. -/
inductive PyFields where
  | nil : PyFields
  | cons : String → PyVal → PyFields → PyFields
  deriving Repr
end

mutual
/-- Python structural equality (the == of the source) on values. -/
def PyVal.beq : PyVal → PyVal → Bool
  | .vNone, .vNone => true
  | .vBool a, .vBool b => a == b
  | .vInt a, .vInt b => a == b
  | .vStr a, .vStr b => a == b
  | .vList xs, .vList ys => PyList.beq xs ys
  | .vDict xs, .vDict ys => PyFields.beq xs ys
  | _, _ => false
/-- Elementwise equality of Python lists. -/
def PyList.beq : PyList → PyList → Bool
  | .nil, .nil => true
  | .cons x xs, .cons y ys => PyVal.beq x y && PyList.beq xs ys
  | _, _ => false
/-- Entrywise equality of dict entry sequences. -/
def PyFields.beq : PyFields → PyFields → Bool
  | .nil, .nil => true
  | .cons k1 v1 xs, .cons k2 v2 ys =>
      k1 == k2 && PyVal.beq v1 v2 && PyFields.beq xs ys
  | _, _ => false
end

mutual
theorem PyVal.beq_iff_val : ∀ a b : PyVal, PyVal.beq a b = true ↔ a = b
  | .vNone, b => by cases b <;> simp [PyVal.beq]
  | .vBool a, b => by cases b <;> simp [PyVal.beq]
  | .vInt a, b => by cases b <;> simp [PyVal.beq]
  | .vStr a, b => by cases b <;> simp [PyVal.beq]
  | .vList xs, b => by
      cases b <;> simp [PyVal.beq]
      exact PyList.beq_iff_list xs _
  | .vDict xs, b => by
      cases b <;> simp [PyVal.beq]
      exact PyFields.beq_iff_fields xs _
theorem PyList.beq_iff_list : ∀ a b : PyList, PyList.beq a b = true ↔ a = b
  | .nil, b => by cases b <;> simp [PyList.beq]
  | .cons x xs, b => by
      cases b <;> simp [PyList.beq]
      exact and_congr (PyVal.beq_iff_val x _) (PyList.beq_iff_list xs _)
theorem PyFields.beq_iff_fields : ∀ a b : PyFields, PyFields.beq a b = true ↔ a = b
  | .nil, b => by cases b <;> simp [PyFields.beq]
  | .cons k v xs, b => by
      cases b <;> simp [PyFields.beq, and_assoc]
      intro _
      exact and_congr (PyVal.beq_iff_val v _) (PyFields.beq_iff_fields xs _)
end

instance : DecidableEq PyVal := fun a b => decidable_of_iff _ (PyVal.beq_iff_val a b)
instance : DecidableEq PyList := fun a b => decidable_of_iff _ (PyList.beq_iff_list a b)
instance : DecidableEq PyFields := fun a b => decidable_of_iff _ (PyFields.beq_iff_fields a b)
instance : BEq PyVal := ⟨PyVal.beq⟩

/-- Python dict with string keys and homogeneous values: an association
list in insertion order. -/
abbrev Dct (α : Type) : Type := List (String × α)

/-- d.get(k): first binding of k, if any. -/
def dctGet? {α : Type} : Dct α → String → Option α
  | [], _ => none
  | (k', v') :: rest, k => if k' = k then some v' else dctGet? rest k

/-- d.get(k, default). -/
def dctGetD {α : Type} (d : Dct α) (k : String) (dflt : α) : α :=
  (dctGet? d k).getD dflt

/-- k in d. -/
def dctContains {α : Type} (d : Dct α) (k : String) : Bool :=
  (dctGet? d k).isSome

/-- d[k] = v: replace in place if the key exists, else append (Python dict
assignment keeps the original position of an existing key). -/
def dctSet {α : Type} : Dct α → String → α → Dct α
  | [], k, v => [(k, v)]
  | (k', v') :: rest, k, v =>
      if k' = k then (k, v) :: rest else (k', v') :: dctSet rest k v

/-- del d[k]: remove the binding of k (the source only deletes keys it
knows to be present). -/
def dctDel {α : Type} : Dct α → String → Dct α
  | [], _ => []
  | (k', v') :: rest, k => if k' = k then rest else (k', v') :: dctDel rest k

/-- d.update(other): assign every binding of other into d, in order. -/
def dctUpdate {α : Type} (d other : Dct α) : Dct α :=
  other.foldl (fun acc kv => dctSet acc kv.1 kv.2) d

/-- Convert a list of values into a Python list value. -/
def listOf : List PyVal → PyList
  | [] => .nil
  | x :: xs => .cons x (listOf xs)

/-- View a Python list value as a list. -/
def PyList.toList : PyList → List PyVal
  | .nil => []
  | .cons x xs => x :: xs.toList

/-- Convert an association list into dict-value entries. -/
def fieldsOf : Dct PyVal → PyFields
  | [] => .nil
  | (k, v) :: rest => .cons k v (fieldsOf rest)

/-- View dict-value entries as an association list. -/
def PyFields.toDct : PyFields → Dct PyVal
  | .nil => []
  | .cons k v rest => (k, v) :: rest.toDct

@[simp] theorem toList_listOf (xs : List PyVal) : (listOf xs).toList = xs := by
  induction xs with
  | nil => rfl
  | cons x xs ih => simp [listOf, PyList.toList, ih]

@[simp] theorem toDct_fieldsOf (d : Dct PyVal) : (fieldsOf d).toDct = d := by
  induction d with
  | nil => rfl
  | cons kv rest ih => simp [fieldsOf, PyFields.toDct, ih]

/-- element in pylist (Python == on elements). -/
def PyList.containsVal (x : PyVal) : PyList → Bool
  | .nil => false
  | .cons y ys => PyVal.beq y x || ys.containsVal x

/-- key in dict-value. -/
def PyFields.containsKey (k : String) : PyFields → Bool
  | .nil => false
  | .cons k' _ rest => k' == k || rest.containsKey k

/-- A convenient constructor: a Python list of id strings. -/
def strList (ids : List String) : PyVal :=
  .vList (listOf (ids.map .vStr))

/-- Python truthiness of a value (used by if x: tests in the source). -/
def truthy : PyVal → Bool
  | .vNone => false
  | .vBool b => b
  | .vInt n => n != 0
  | .vStr s => s ≠ ""
  | .vList .nil => false
  | .vList _ => true
  | .vDict .nil => false
  | .vDict _ => true

/-- Python x in v membership, for the container shapes the engine uses:
list membership by ==, dict key membership, substring test on strings;
other right-hand sides do not occur in the engine. -/
def pyIn (x : PyVal) : PyVal → Bool
  | .vList xs => xs.containsVal x
  | .vDict d => match x with
      | .vStr k => d.containsKey k
      | _ => false
  | .vStr s => match x with
      | .vStr sub => if sub = "" then true else (s.splitOn sub).length ≥ 2
      | _ => false
  | _ => false

/-- str(x) as used in the source's f-strings (lists/dicts are only ever
interpolated for log text the claims do not inspect). -/
def pyStr : PyVal → String
  | .vNone => "None"
  | .vBool b => if b then "True" else "False"
  | .vInt n => toString n
  | .vStr s => s
  | .vList _ => "[...]"
  | .vDict _ => "{...}"

/-! ## state.py: status enums and status records -/

/-- state.py WorkflowState, the workflow status enum. -/
inductive WorkflowState where
  | created | pending | running | paused | completed | failed | cancelled
  deriving Repr, DecidableEq

/-- The .value string of a WorkflowState member. -/
def WorkflowState.value : WorkflowState → String
  | .created => "created"
  | .pending => "pending"
  | .running => "running"
  | .paused => "paused"
  | .completed => "completed"
  | .failed => "failed"
  | .cancelled => "cancelled"

/-- WorkflowState(v): enum lookup by value, none where Python raises
ValueError. -/
def WorkflowState.ofValue? (v : String) : Option WorkflowState :=
  if v = "created" then some .created
  else if v = "pending" then some .pending
  else if v = "running" then some .running
  else if v = "paused" then some .paused
  else if v = "completed" then some .completed
  else if v = "failed" then some .failed
  else if v = "cancelled" then some .cancelled
  else none

/-- state.py StepState, the step status enum. -/
inductive StepState where
  | pending | running | completed | failed | skipped
  deriving Repr, DecidableEq

/-- The .value string of a StepState member. -/
def StepState.value : StepState → String
  | .pending => "pending"
  | .running => "running"
  | .completed => "completed"
  | .failed => "failed"
  | .skipped => "skipped"

/-- StepState(v): enum lookup by value. -/
def StepState.ofValue? (v : String) : Option StepState :=
  if v = "pending" then some .pending
  else if v = "running" then some .running
  else if v = "completed" then some .completed
  else if v = "failed" then some .failed
  else if v = "skipped" then some .skipped
  else none

/-- state.py StepStatus dataclass. -/
structure StepStatus where
  id : String
  name : String
  state : StepState
  started_at : Option Nat := none
  completed_at : Option Nat := none
  error_message : Option String := none
  outputs : Dct PyVal := []
  retry_count : Int := 0
  max_retries : Int := 3
  deriving Repr, DecidableEq

/-- state.py WorkflowStatus dataclass. -/
structure WorkflowStatus where
  id : String
  name : String
  state : WorkflowState
  steps : Dct StepStatus := []
  created_at : Nat
  started_at : Option Nat := none
  completed_at : Option Nat := none
  error_message : Option String := none
  inputs : Dct PyVal := []
  outputs : Dct PyVal := []
  metadata : Dct PyVal := []
  deriving Repr, DecidableEq

/-- datetime.isoformat of a tick: an injective encoding into never-empty
strings, with parseIso? as left inverse. Any such encoding models the ISO
timestamp string faithfully; a unary one keeps the inverse lemma
elementary. -/
def isoString (t : Nat) : String :=
  String.mk (List.replicate (t + 1) 'T')

/-- datetime.fromisoformat on a string (raises on a malformed string; the
empty string is never a valid timestamp). -/
def parseIsoStr? (s : String) : Option Nat :=
  if s = "" then none else some (s.length - 1)

/-- t.isoformat() if t else None. -/
def isoOpt : Option Nat → PyVal
  | none => .vNone
  | some t => .vStr (isoString t)

/-- An optional string field serialized into a dict. -/
def strOpt : Option String → PyVal
  | none => .vNone
  | some s => .vStr s

/-- StepStatus.to_dict. -/
def StepStatus.to_dict (s : StepStatus) : PyVal :=
  .vDict (fieldsOf [
    ("id", .vStr s.id),
    ("name", .vStr s.name),
    ("state", .vStr s.state.value),
    ("started_at", isoOpt s.started_at),
    ("completed_at", isoOpt s.completed_at),
    ("error_message", strOpt s.error_message),
    ("outputs", .vDict (fieldsOf s.outputs)),
    ("retry_count", .vInt s.retry_count),
    ("max_retries", .vInt s.max_retries)])

/-- data[k]: raises KeyError when k is absent or data is no dict. -/
def pyGet? (data : PyVal) (k : String) : Option PyVal :=
  match data with
  | .vDict d => dctGet? d.toDct k
  | _ => none

/-- data.get(k, dflt). -/
def pyGetD (data : PyVal) (k : String) (dflt : PyVal) : PyVal :=
  match data with
  | .vDict d => dctGetD d.toDct k dflt
  | _ => dflt

/-- Read a value the typed model requires to be a string. -/
def asStr? : PyVal → Option String
  | .vStr s => some s
  | _ => none

/-- Read a value the typed model requires to be an int. -/
def asInt? : PyVal → Option Int
  | .vInt n => some n
  | _ => none

/-- Read a value the typed model requires to be a dict. -/
def asDct? : PyVal → Option (Dct PyVal)
  | .vDict d => some d.toDct
  | _ => none

/-- Read an optional string field (None or a string). -/
def asStrOpt? : PyVal → Option (Option String)
  | .vNone => some none
  | .vStr s => some (some s)
  | _ => none

/-- fromisoformat(data[k]) if data.get(k) else None: the truthiness test of
the source, then parsing of the serialized timestamp. -/
def parseTimeOpt (v : PyVal) : Option (Option Nat) :=
  if truthy v then
    match v with
    | .vStr s => (parseIsoStr? s).map some
    | _ => none
  else
    some none

/-- fromisoformat(data[k]) for a required timestamp field. -/
def parseIso? (v : PyVal) : Option Nat :=
  match v with
  | .vStr s => parseIsoStr? s
  | _ => none

/-- StepStatus.from_dict. -/
def StepStatus.from_dict (data : PyVal) : Option StepStatus := do
  let id ← asStr? (← pyGet? data "id")
  let name ← asStr? (← pyGet? data "name")
  let state ← StepState.ofValue? (← asStr? (← pyGet? data "state"))
  let started_at ← parseTimeOpt (pyGetD data "started_at" .vNone)
  let completed_at ← parseTimeOpt (pyGetD data "completed_at" .vNone)
  let error_message ← asStrOpt? (pyGetD data "error_message" .vNone)
  let outputs ← asDct? (pyGetD data "outputs" (.vDict .nil))
  let retry_count ← asInt? (pyGetD data "retry_count" (.vInt 0))
  let max_retries ← asInt? (pyGetD data "max_retries" (.vInt 3))
  pure { id, name, state, started_at, completed_at, error_message, outputs,
         retry_count, max_retries }

/-- WorkflowStatus.to_dict. -/
def WorkflowStatus.to_dict (w : WorkflowStatus) : PyVal :=
  .vDict (fieldsOf [
    ("id", .vStr w.id),
    ("name", .vStr w.name),
    ("state", .vStr w.state.value),
    ("steps", .vDict (fieldsOf (w.steps.map (fun kv => (kv.1, kv.2.to_dict))))),
    ("created_at", .vStr (isoString w.created_at)),
    ("started_at", isoOpt w.started_at),
    ("completed_at", isoOpt w.completed_at),
    ("error_message", strOpt w.error_message),
    ("inputs", .vDict (fieldsOf w.inputs)),
    ("outputs", .vDict (fieldsOf w.outputs)),
    ("metadata", .vDict (fieldsOf w.metadata))])

/-- The steps-reconstruction loop of WorkflowStatus.from_dict: iterate the
serialized entries in order, parse each and assign into the dict under
construction. -/
def stepsFromDictLoop (acc : Dct StepStatus) : Dct PyVal → Option (Dct StepStatus)
  | [] => some acc
  | kv :: rest =>
      match StepStatus.from_dict kv.2 with
      | none => none
      | some s => stepsFromDictLoop (dctSet acc kv.1 s) rest

/-- steps = {}; for step_id, step_data in data.get('steps', {}).items():
steps[step_id] = StepStatus.from_dict(step_data). -/
def stepsFromDict (entries : Dct PyVal) : Option (Dct StepStatus) :=
  stepsFromDictLoop [] entries

/-- WorkflowStatus.from_dict. -/
def WorkflowStatus.from_dict (data : PyVal) : Option WorkflowStatus := do
  let stepsRaw ← asDct? (pyGetD data "steps" (.vDict .nil))
  let steps ← stepsFromDict stepsRaw
  let id ← asStr? (← pyGet? data "id")
  let name ← asStr? (← pyGet? data "name")
  let state ← WorkflowState.ofValue? (← asStr? (← pyGet? data "state"))
  let created_at ← parseIso? (← pyGet? data "created_at")
  let started_at ← parseTimeOpt (pyGetD data "started_at" .vNone)
  let completed_at ← parseTimeOpt (pyGetD data "completed_at" .vNone)
  let error_message ← asStrOpt? (pyGetD data "error_message" .vNone)
  let inputs ← asDct? (pyGetD data "inputs" (.vDict .nil))
  let outputs ← asDct? (pyGetD data "outputs" (.vDict .nil))
  let metadata ← asDct? (pyGetD data "metadata" (.vDict .nil))
  pure { id, name, state, steps, created_at, started_at,
         completed_at, error_message, inputs, outputs, metadata }

/-! ## Dictionary lemmas -/

theorem dctGet?_set_eq {α : Type} :
    ∀ (d : Dct α) (k : String) (v : α), dctGet? (dctSet d k v) k = some v
  | [], k, v => by simp [dctSet, dctGet?]
  | (k', v') :: rest, k, v => by
      by_cases h : k' = k
      · simp [dctSet, h, dctGet?]
      · simp [dctSet, h, dctGet?, dctGet?_set_eq rest k v]

theorem dctGet?_set_ne {α : Type} (d : Dct α) (k k2 : String) (v : α)
    (h : k ≠ k2) : dctGet? (dctSet d k v) k2 = dctGet? d k2 := by
  induction d with
  | nil => simp [dctSet, dctGet?, h]
  | cons kv rest ih =>
      by_cases h' : kv.1 = k
      · obtain ⟨k', v'⟩ := kv
        simp only at h'
        subst h'
        simp [dctSet, dctGet?, h]
      · obtain ⟨k', v'⟩ := kv
        simp only at h'
        simp [dctSet, h', dctGet?, ih]

theorem dctSet_eq_of_get {α : Type} :
    ∀ (d : Dct α) (k : String) (v : α), dctGet? d k = some v → dctSet d k v = d
  | [], k, v => by simp [dctGet?]
  | (k', v') :: rest, k, v => by
      by_cases h : k' = k
      · subst h
        simp [dctGet?, dctSet]
        intro h'
        exact h'.symm
      · simp [dctGet?, dctSet, h]
        exact dctSet_eq_of_get rest k v

theorem dctSet_fresh {α : Type} :
    ∀ (d : Dct α) (k : String) (v : α), dctGet? d k = none →
      dctSet d k v = d ++ [(k, v)]
  | [], k, v => by simp [dctSet]
  | (k', v') :: rest, k, v => by
      by_cases h : k' = k
      · simp [dctGet?, h]
      · simp [dctGet?, dctSet, h]
        exact dctSet_fresh rest k v

theorem dctDel_set_fresh {α : Type} :
    ∀ (d : Dct α) (k : String) (v : α), dctGet? d k = none →
      dctDel (dctSet d k v) k = d
  | [], k, v => by simp [dctSet, dctDel]
  | (k', v') :: rest, k, v => by
      by_cases h : k' = k
      · simp [dctGet?, h]
      · simp [dctGet?, dctSet, dctDel, h]
        exact dctDel_set_fresh rest k v

theorem dctGet?_append {α : Type} :
    ∀ (a b : Dct α) (k : String),
      dctGet? (a ++ b) k = ((dctGet? a k).rec (dctGet? b k) (fun v => some v))
  | [], b, k => by simp [dctGet?]
  | (k', v') :: rest, b, k => by
      by_cases h : k' = k
      · simp [dctGet?, h]
      · simp [dctGet?, h, dctGet?_append rest b k]

theorem dctGet?_append_left {α : Type} (a b : Dct α) (k : String) (v : α)
    (h : dctGet? a k = some v) : dctGet? (a ++ b) k = some v := by
  rw [dctGet?_append, h]

theorem dctGet?_append_right {α : Type} (a b : Dct α) (k : String)
    (h : dctGet? a k = none) : dctGet? (a ++ b) k = dctGet? b k := by
  rw [dctGet?_append, h]

theorem dctSet_set {α : Type} :
    ∀ (d : Dct α) (k : String) (v w : α),
      dctSet (dctSet d k v) k w = dctSet d k w
  | [], k, v, w => by simp [dctSet]
  | (k', v') :: rest, k, v, w => by
      by_cases h : k' = k
      · simp [dctSet, h]
      · simp [dctSet, h, dctSet_set rest k v w]

theorem dctGet?_mem {α : Type} :
    ∀ (d : Dct α) (k : String) (v : α), dctGet? d k = some v → (k, v) ∈ d
  | [], k, v => by simp [dctGet?]
  | (k', v') :: rest, k, v => by
      by_cases h : k' = k
      · subst h
        simp [dctGet?]
        intro h'
        exact Or.inl h'.symm
      · simp [dctGet?, h]
        intro h'
        exact Or.inr (dctGet?_mem rest k v h')

theorem mem_dctSet {α : Type} :
    ∀ (d : Dct α) (k : String) (v : α) (x : String × α),
      x ∈ dctSet d k v → x = (k, v) ∨ x ∈ d
  | [], k, v, x => by simp [dctSet]
  | (k', v') :: rest, k, v, x => by
      by_cases h : k' = k
      · simp [dctSet, h]
        rintro (h' | h')
        · exact Or.inl h'
        · exact Or.inr (Or.inr h')
      · simp [dctSet, h]
        rintro (h' | h')
        · exact Or.inr (Or.inl h')
        · rcases mem_dctSet rest k v x h' with h'' | h''
          · exact Or.inl h''
          · exact Or.inr (Or.inr h'')

theorem keys_dctSet_of_mem {α : Type} :
    ∀ (d : Dct α) (k : String) (v w : α), dctGet? d k = some v →
      (dctSet d k w).map Prod.fst = d.map Prod.fst
  | [], k, v, w => by simp [dctGet?]
  | (k', v') :: rest, k, v, w => by
      by_cases h : k' = k
      · simp [dctGet?, dctSet, h]
      · simp [dctGet?, dctSet, h]
        exact keys_dctSet_of_mem rest k v w

theorem list_map_id_of {α : Type} (l : List α) (f : α → α)
    (h : ∀ x ∈ l, f x = x) : l.map f = l := by
  induction l with
  | nil => rfl
  | cons q rest ih =>
      rw [List.map_cons, h q (List.mem_cons_self _ _),
          ih (fun x hx => h x (List.mem_cons_of_mem _ hx))]

/-- A key is in the dict iff it is among the entry keys. -/
theorem dctGet?_eq_none_iff {α : Type} :
    ∀ (d : Dct α) (k : String), dctGet? d k = none ↔ k ∉ d.map Prod.fst
  | [], k => by simp [dctGet?]
  | (k', v') :: rest, k => by
      by_cases h : k' = k
      · simp [dctGet?, h]
      · simp [dctGet?, h, dctGet?_eq_none_iff rest k, Ne.symm h]

theorem dctGet?_del_self_of_nodup {α : Type} :
    ∀ (d : Dct α) (k : String), (d.map Prod.fst).Nodup →
      dctGet? (dctDel d k) k = none
  | [], k, h => by simp [dctDel, dctGet?]
  | (k', v') :: rest, k, h => by
      by_cases hk : k' = k
      · subst hk
        simp [dctDel]
        rw [dctGet?_eq_none_iff]
        simpa using h.not_mem
      · simp [dctDel, hk, dctGet?]
        exact dctGet?_del_self_of_nodup rest k (by simpa using h.of_cons)

/-! ## Serialization round-trip lemmas -/

@[simp] theorem parseIsoStr?_isoString (t : Nat) :
    parseIsoStr? (isoString t) = some t := by
  have hne : isoString t ≠ "" := by
    simp [isoString, String.ext_iff]
  have hlen : (isoString t).length = t + 1 := by
    simp [isoString, String.length]
  simp [parseIsoStr?, hne, hlen]

@[simp] theorem isoString_ne_empty (t : Nat) : (isoString t = "") = False := by
  simp [isoString, String.ext_iff]

@[simp] theorem parseTimeOpt_isoOpt (x : Option Nat) :
    parseTimeOpt (isoOpt x) = some x := by
  cases x with
  | none => rfl
  | some t => simp [isoOpt, parseTimeOpt, truthy]

@[simp] theorem parseIso?_isoString (t : Nat) :
    parseIso? (.vStr (isoString t)) = some t := by
  simp [parseIso?]

@[simp] theorem asStrOpt?_strOpt (x : Option String) :
    asStrOpt? (strOpt x) = some x := by
  cases x <;> rfl

@[simp] theorem StepState.ofValue?_value_step (s : StepState) :
    StepState.ofValue? s.value = some s := by
  cases s <;> rfl

@[simp] theorem WorkflowState.ofValue?_value_workflow (s : WorkflowState) :
    WorkflowState.ofValue? s.value = some s := by
  cases s <;> rfl

/-- StepStatus serialization round-trips. -/
theorem StepStatus.from_dict_to_dict_step (s : StepStatus) :
    StepStatus.from_dict s.to_dict = some s := by
  obtain ⟨id, name, state, started_at, completed_at, em, outs, rc, mr⟩ := s
  simp [StepStatus.to_dict, StepStatus.from_dict, pyGet?, pyGetD, dctGetD,
        dctGet?, asStr?, asInt?, asDct?, Option.bind]

theorem stepsFromDictLoop_roundtrip :
    ∀ (l acc : Dct StepStatus),
      (∀ p ∈ l, dctGet? acc p.1 = none) →
      (l.map Prod.fst).Nodup →
      stepsFromDictLoop acc (l.map (fun kv => (kv.1, kv.2.to_dict))) =
        some (acc ++ l)
  | [], acc => by simp [stepsFromDictLoop]
  | (k, s) :: rest, acc => by
      intro hdisj hnodup
      have hget : dctGet? acc k = none := hdisj (k, s) (by simp)
      have hknotin : k ∉ rest.map Prod.fst := by
        simpa using hnodup.not_mem
      simp only [List.map_cons, stepsFromDictLoop, StepStatus.from_dict_to_dict_step]
      rw [dctSet_fresh acc k s hget]
      have hdisj' : ∀ p ∈ rest, dctGet? (acc ++ [(k, s)]) p.1 = none := by
        intro p hp
        rw [dctGet?_append_right _ _ _ (hdisj p (List.mem_cons_of_mem _ hp))]
        have : p.1 ≠ k := by
          intro hpk
          exact hknotin (hpk ▸ List.mem_map_of_mem Prod.fst hp)
        simp [dctGet?, Ne.symm this]
      have := stepsFromDictLoop_roundtrip rest (acc ++ [(k, s)]) hdisj'
        hnodup.of_cons
      rw [this]
      simp

/-- The steps-reconstruction loop inverts pointwise serialization when the
step ids are distinct (a Python dict invariant). -/
theorem stepsFromDict_roundtrip (l : Dct StepStatus)
    (h : (l.map Prod.fst).Nodup) :
    stepsFromDict (l.map (fun kv => (kv.1, kv.2.to_dict))) = some l := by
  have := stepsFromDictLoop_roundtrip l [] (fun p _ => rfl) h
  simpa [stepsFromDict] using this

/-- WorkflowStatus serialization round-trips (under the Python dict
invariant that step keys are unique). -/
theorem WorkflowStatus.from_dict_to_dict_workflow (w : WorkflowStatus)
    (h : (w.steps.map Prod.fst).Nodup) :
    WorkflowStatus.from_dict w.to_dict = some w := by
  obtain ⟨id, name, state, steps, ca, sa, coa, em, ins, outs, md⟩ := w
  simp only [List.map_map] at h ⊢
  simp [WorkflowStatus.to_dict, WorkflowStatus.from_dict, pyGet?, pyGetD,
        dctGetD, dctGet?, asStr?, asDct?, Option.bind,
        stepsFromDict_roundtrip _ h]

/-! ## database.py: the store -/

/--
Modelled from the spec: the row type of the workflows table. The ORM
classes Base/WorkflowModel/StepModel that database.py imports from
models.py are absent from the source tree; the spec (section 6, Persisted
state layout) fixes the schema: workflows(id PK, name, status, timestamps,
inputs_json, outputs_json, metadata_json, error).
-/
structure WorkflowRow where
  name : String
  state : WorkflowState
  created_at : Nat
  started_at : Option Nat
  completed_at : Option Nat
  error_message : Option String
  inputs : Dct PyVal
  outputs : Dct PyVal
  metadata : Dct PyVal
  deriving Repr, DecidableEq

/--
Modelled from the spec: the row type of the steps table: steps(id PK,
workflow_id FK, name, status, timestamps, outputs_json, retry_count,
max_retries, error) with cascade-delete. Note the step id alone is the
primary key, as database.py's session.get(StepModel, step_id) requires.
-/
structure StepRow where
  workflow_id : String
  name : String
  state : StepState
  started_at : Option Nat
  completed_at : Option Nat
  error_message : Option String
  outputs : Dct PyVal
  retry_count : Int
  max_retries : Int
  deriving Repr, DecidableEq

/-- The relational store of database.py: both tables, keyed by primary
key, in insertion order. -/
structure DB where
  workflows : Dct WorkflowRow
  steps : Dct StepRow
  deriving Repr, DecidableEq

/-- The empty store. -/
def DB.empty : DB := { workflows := [], steps := [] }

/-- The workflow row created by save_workflow's insert branch. -/
def rowOfWorkflow (w : WorkflowStatus) : WorkflowRow :=
  { name := w.name, state := w.state, created_at := w.created_at,
    started_at := w.started_at, completed_at := w.completed_at,
    error_message := w.error_message, inputs := w.inputs,
    outputs := w.outputs, metadata := w.metadata }

/-- The step row created by save_workflow's insert branch. -/
def rowOfStep (wid : String) (s : StepStatus) : StepRow :=
  { workflow_id := wid, name := s.name, state := s.state,
    started_at := s.started_at, completed_at := s.completed_at,
    error_message := s.error_message, outputs := s.outputs,
    retry_count := s.retry_count, max_retries := s.max_retries }

/-- One iteration of save_workflow's step loop: insert a new row with all
fields, or update an existing row without touching workflow_id, name and
max_retries. -/
def saveStepRow (wid : String) (st : Dct StepRow) (kv : String × StepStatus) :
    Dct StepRow :=
  match dctGet? st kv.1 with
  | none => dctSet st kv.1 (rowOfStep wid kv.2)
  | some srow =>
      dctSet st kv.1
        { srow with
          state := kv.2.state
          started_at := kv.2.started_at
          completed_at := kv.2.completed_at
          error_message := kv.2.error_message
          outputs := kv.2.outputs
          retry_count := kv.2.retry_count }

/-- database.py Database.save_workflow, success path (a SQLAlchemyError is
injected as a DatabaseError at the StateManager call sites below): upsert
the workflow row, then upsert each step row; the update branches do not
write name/created_at (workflow) nor workflow_id/name/max_retries (step). -/
def DB.save_workflow (db : DB) (w : WorkflowStatus) : DB :=
  let wfs :=
    match dctGet? db.workflows w.id with
    | none => dctSet db.workflows w.id (rowOfWorkflow w)
    | some row =>
        dctSet db.workflows w.id
          { row with
            state := w.state
            started_at := w.started_at
            completed_at := w.completed_at
            error_message := w.error_message
            inputs := w.inputs
            outputs := w.outputs
            metadata := w.metadata }
  { workflows := wfs, steps := w.steps.foldl (saveStepRow w.id) db.steps }

/-- The StepStatus reconstructed from a loaded step row. -/
def stepOfRow (sid : String) (r : StepRow) : StepStatus :=
  { id := sid, name := r.name, state := r.state, started_at := r.started_at,
    completed_at := r.completed_at, error_message := r.error_message,
    outputs := r.outputs, retry_count := r.retry_count,
    max_retries := r.max_retries }

/-- The WorkflowStatus materialized from a workflow row and the step rows
whose foreign key references it (shared by load_workflow and
list_workflows). -/
def DB.materialize (db : DB) (wid : String) (row : WorkflowRow) :
    WorkflowStatus :=
  { id := wid, name := row.name, state := row.state,
    created_at := row.created_at, started_at := row.started_at,
    completed_at := row.completed_at,
    error_message := row.error_message, inputs := row.inputs,
    outputs := row.outputs, metadata := row.metadata,
    steps := (db.steps.filter (fun kv => kv.2.workflow_id == wid)).map
      (fun kv => (kv.1, stepOfRow kv.1 kv.2)) }

/-- database.py Database.load_workflow: rebuild the WorkflowStatus from
its row and the step rows whose foreign key references it. -/
def DB.load_workflow (db : DB) (wid : String) : Option WorkflowStatus :=
  match dctGet? db.workflows wid with
  | none => none
  | some row => some (db.materialize wid row)

theorem stepOfRow_rowOfStep (wid : String) (kv : String × StepStatus)
    (hid : kv.2.id = kv.1) : stepOfRow kv.1 (rowOfStep wid kv.2) = kv.2 := by
  obtain ⟨k, s⟩ := kv
  obtain ⟨id, name, state, sa, ca, em, outs, rc, mr⟩ := s
  simp only at hid
  simp [stepOfRow, rowOfStep, hid]

theorem save_steps_fold_fresh (wid : String) :
    ∀ (l : Dct StepStatus) (st : Dct StepRow),
      (∀ p ∈ l, dctGet? st p.1 = none) →
      (l.map Prod.fst).Nodup →
      l.foldl (saveStepRow wid) st =
        st ++ l.map (fun kv => (kv.1, rowOfStep wid kv.2))
  | [], st => by simp
  | (k, s) :: rest, st => by
      intro hdisj hnodup
      have hget : dctGet? st k = none := hdisj (k, s) (by simp)
      have hknotin : k ∉ rest.map Prod.fst := by simpa using hnodup.not_mem
      rw [List.foldl_cons]
      have hstep : saveStepRow wid st (k, s) = st ++ [(k, rowOfStep wid s)] := by
        simp [saveStepRow, hget, dctSet_fresh st k _ hget]
      rw [hstep]
      have hdisj' : ∀ p ∈ rest, dctGet? (st ++ [(k, rowOfStep wid s)]) p.1 = none := by
        intro p hp
        rw [dctGet?_append_right _ _ _ (hdisj p (List.mem_cons_of_mem _ hp))]
        have : p.1 ≠ k := by
          intro hpk
          exact hknotin (hpk ▸ List.mem_map_of_mem Prod.fst hp)
        simp [dctGet?, Ne.symm this]
      rw [save_steps_fold_fresh wid rest _ hdisj' hnodup.of_cons]
      simp

/-- Save-then-load round-trip of database.py, for a workflow whose id and
step ids are not yet present in the store and whose step records carry
their own key as id (the invariant the StateManager maintains). -/
theorem DB.load_save_fresh (db : DB) (w : WorkflowStatus)
    (hw : dctGet? db.workflows w.id = none)
    (hs : ∀ p ∈ w.steps, dctGet? db.steps p.1 = none)
    (hforeign : ∀ p ∈ db.steps, p.2.workflow_id ≠ w.id)
    (hnodup : (w.steps.map Prod.fst).Nodup)
    (hids : ∀ p ∈ w.steps, p.2.id = p.1) :
    (db.save_workflow w).load_workflow w.id = some w := by
  obtain ⟨id, name, state, steps, ca, sa, coa, em, ins, outs, md⟩ := w
  simp only at hw hs hforeign hnodup hids ⊢
  simp only [DB.save_workflow, hw]
  rw [save_steps_fold_fresh _ _ _ hs hnodup]
  simp only [DB.load_workflow, DB.materialize, dctGet?_set_eq,
             List.filter_append, List.map_append]
  have hold : db.steps.filter (fun kv => kv.2.workflow_id == id) = [] := by
    apply List.filter_eq_nil_iff.mpr
    intro p hp
    simpa using hforeign p hp
  have hnew : (steps.map (fun kv => (kv.1, rowOfStep id kv.2))).filter
      (fun kv => kv.2.workflow_id == id) =
      steps.map (fun kv => (kv.1, rowOfStep id kv.2)) := by
    apply List.filter_eq_self.mpr
    intro p hp
    obtain ⟨q, hq, rfl⟩ := List.mem_map.mp hp
    simp [rowOfStep]
  rw [hold, hnew]
  simp only [List.map_map]
  have hsteps : steps.map ((fun kv => (kv.1, stepOfRow kv.1 kv.2)) ∘
      (fun kv => (kv.1, rowOfStep id kv.2))) = steps := by
    refine list_map_id_of _ _ ?_
    intro p hp
    have h2 := stepOfRow_rowOfStep id p (hids p hp)
    simp only [Function.comp]
    rw [h2]
  simp [rowOfWorkflow, hsteps]

/-! ## database.py: cleanup_workflows -/

/-- The SQL selection of cleanup_workflows: terminal state and
completed_at at most the cutoff (a NULL completed_at never matches a SQL
comparison). -/
def wfExpired (cutoff : Nat) (r : WorkflowRow) : Bool :=
  (r.state == .completed || r.state == .failed || r.state == .cancelled) &&
    (match r.completed_at with
     | some t => decide (t ≤ cutoff)
     | none => false)

/-- session.delete(db_workflow): remove the workflow row; its step rows go
with it (spec-modelled cascade-delete on the foreign key). -/
def DB.erase_workflow (db : DB) (wid : String) : DB :=
  { workflows := dctDel db.workflows wid,
    steps := db.steps.filter (fun kv => kv.2.workflow_id != wid) }

/-- database.py Database.cleanup_workflows: select the expired terminal
workflows, delete each while counting, return the count; cutoff stands
for datetime.now() minus timedelta(days=max_age_days). -/
def DB.cleanup_workflows (db : DB) (cutoff : Nat) : Nat × DB :=
  (db.workflows.filter (fun kv => wfExpired cutoff kv.2)).foldl
    (fun acc kv => (acc.1 + 1, acc.2.erase_workflow kv.1)) (0, db)

theorem cleanup_fold_fst :
    ∀ (vs : List (String × WorkflowRow)) (n : Nat) (d : DB),
      (vs.foldl (fun acc kv => (acc.1 + 1, acc.2.erase_workflow kv.1))
        (n, d)).1 = n + vs.length
  | [], n, d => by simp
  | kv :: rest, n, d => by
      rw [List.foldl_cons, cleanup_fold_fst rest (n + 1) _]
      simp
      omega

theorem cleanup_fold_snd :
    ∀ (vs : List (String × WorkflowRow)) (n : Nat) (d : DB),
      (vs.foldl (fun acc kv => (acc.1 + 1, acc.2.erase_workflow kv.1))
        (n, d)).2 = vs.foldl (fun d kv => DB.erase_workflow d kv.1) d
  | [], n, d => rfl
  | kv :: rest, n, d => by
      rw [List.foldl_cons, List.foldl_cons, cleanup_fold_snd rest (n + 1) _]

theorem erase_fold_workflows :
    ∀ (vs : List (String × WorkflowRow)) (d : DB),
      (vs.foldl (fun d kv => DB.erase_workflow d kv.1) d).workflows =
        vs.foldl (fun w kv => dctDel w kv.1) d.workflows
  | [], d => rfl
  | kv :: rest, d => by
      rw [List.foldl_cons, List.foldl_cons, erase_fold_workflows rest _]
      rfl

theorem erase_fold_steps :
    ∀ (vs : List (String × WorkflowRow)) (d : DB),
      (vs.foldl (fun d kv => DB.erase_workflow d kv.1) d).steps =
        d.steps.filter (fun kv => vs.all (fun q => kv.2.workflow_id != q.1))
  | [], d => by simp
  | kv :: rest, d => by
      rw [List.foldl_cons, erase_fold_steps rest _]
      show (d.steps.filter (fun p => p.2.workflow_id != kv.1)).filter
            (fun p => rest.all (fun q => p.2.workflow_id != q.1)) = _
      rw [List.filter_filter]
      congr 1
      funext a
      simp [List.all_cons, Bool.and_comm]

theorem foldl_del_cons {α β : Type} (k : String) (v : α) :
    ∀ (vs : List (String × β)) (d : Dct α), (∀ p ∈ vs, p.1 ≠ k) →
      vs.foldl (fun acc kv => dctDel acc kv.1) ((k, v) :: d) =
        (k, v) :: vs.foldl (fun acc kv => dctDel acc kv.1) d
  | [], d, h => rfl
  | q :: rest, d, h => by
      have hq : q.1 ≠ k := h q (List.mem_cons_self _ _)
      rw [List.foldl_cons, List.foldl_cons]
      rw [show dctDel ((k, v) :: d) q.1 = (k, v) :: dctDel d q.1 from by
        simp [dctDel, Ne.symm hq]]
      exact foldl_del_cons k v rest _ (fun p hp => h p (List.mem_cons_of_mem _ hp))

theorem foldl_del_filter {α : Type} :
    ∀ (d : Dct α) (p : String × α → Bool),
      (d.map Prod.fst).Nodup →
      (d.filter p).foldl (fun acc kv => dctDel acc kv.1) d =
        d.filter (fun kv => !(p kv))
  | [], p, h => rfl
  | (k, v) :: rest, p, h => by
      have hnot : k ∉ rest.map Prod.fst := by simpa using h.not_mem
      have htail : (rest.map Prod.fst).Nodup := by simpa using h.of_cons
      by_cases hp : p (k, v)
      · rw [List.filter_cons_of_pos hp, List.foldl_cons]
        rw [show dctDel ((k, v) :: rest) k = rest from by simp [dctDel]]
        rw [foldl_del_filter rest p htail]
        rw [List.filter_cons_of_neg (by simp [hp])]
      · have hp' : p (k, v) = false := by simpa using hp
        rw [List.filter_cons_of_neg (by simp [hp']), List.filter_cons_of_pos
          (by simp [hp'])]
        have hkeys : ∀ q ∈ rest.filter p, q.1 ≠ k := by
          intro q hq hqk
          exact hnot (hqk ▸ List.mem_map_of_mem Prod.fst (List.mem_of_mem_filter hq))
        rw [foldl_del_cons k v (rest.filter p) rest hkeys]
        rw [foldl_del_filter rest p htail]

/-- What one cleanup pass does to the store: the count is the number of
expired terminal workflows, exactly those workflow rows are removed, and
exactly their step rows are removed with them. -/
theorem DB.cleanup_spec (db : DB) (cutoff : Nat)
    (h : (db.workflows.map Prod.fst).Nodup) :
    (db.cleanup_workflows cutoff).1 =
        (db.workflows.filter (fun kv => wfExpired cutoff kv.2)).length ∧
    (db.cleanup_workflows cutoff).2.workflows =
        db.workflows.filter (fun kv => !(wfExpired cutoff kv.2)) ∧
    (db.cleanup_workflows cutoff).2.steps =
        db.steps.filter (fun kv =>
          (db.workflows.filter (fun q => wfExpired cutoff q.2)).all
            (fun q => kv.2.workflow_id != q.1)) := by
  refine ⟨?_, ?_, ?_⟩
  · rw [DB.cleanup_workflows, cleanup_fold_fst]
    simp
  · rw [DB.cleanup_workflows, cleanup_fold_snd, erase_fold_workflows]
    exact foldl_del_filter db.workflows _ h
  · rw [DB.cleanup_workflows, cleanup_fold_snd, erase_fold_steps]

/-- A second cleanup pass over the quiescent store removes nothing. -/
theorem DB.cleanup_idempotent (db : DB) (cutoff : Nat)
    (h : (db.workflows.map Prod.fst).Nodup) :
    (db.cleanup_workflows cutoff).2.cleanup_workflows cutoff =
      (0, (db.cleanup_workflows cutoff).2) := by
  have h2 := (DB.cleanup_spec db cutoff h).2.1
  have hvict : ((db.cleanup_workflows cutoff).2.workflows).filter
      (fun kv => wfExpired cutoff kv.2) = [] := by
    rw [h2, List.filter_filter]
    have : (fun (kv : String × WorkflowRow) =>
        wfExpired cutoff kv.2 && !(wfExpired cutoff kv.2)) =
        (fun _ => false) := by
      funext kv
      simp
    rw [this]
    exact List.filter_false _
  rw [DB.cleanup_workflows, hvict]
  rfl

/-! ## state.py: StateManager -/

/-- The Python exceptions the engine raises: ValueError from the
StateManager checks, DatabaseError from the store, ExecutionError from
the executor, and a generic Exception raised inside a step's execute. -/
inductive PyErr where
  | valueError (msg : String)
  | databaseError (msg : String)
  | executionError (msg : String)
  | exception (msg : String)
  deriving Repr, DecidableEq

/-- str(e). -/
def PyErr.message : PyErr → String
  | .valueError m => m
  | .databaseError m => m
  | .executionError m => m
  | .exception m => m

/-- state.py StateManager: the in-memory _workflows cache over the store.
Store writes can fail; each write operation below takes a saveFails
parameter (none = the write succeeds, some msg = db.save_workflow raises
DatabaseError msg), so the claims can quantify over store behavior. -/
structure StateManager where
  workflows : Dct WorkflowStatus
  db : DB
  deriving Repr, DecidableEq

/-- Truthiness of an optional string (the if error_message: tests). -/
def truthyStr : Option String → Bool
  | none => false
  | some s => s != ""

/-- StateManager.create_workflow: reject an existing id, cache the new
CREATED record, write through; on DatabaseError delete the cache entry
again and propagate. -/
def StateManager.create_workflow (m : StateManager) (saveFails : Option String)
    (workflow_id name : String) (inputs : Dct PyVal) (now : Nat) :
    Except PyErr WorkflowStatus × StateManager :=
  if dctContains m.workflows workflow_id then
    (.error (.valueError ("工作流 " ++ workflow_id ++ " 已存在")), m)
  else
    let status : WorkflowStatus :=
      { id := workflow_id, name := name, state := .created,
        created_at := now, inputs := inputs }
    let m1 : StateManager :=
      { m with workflows := dctSet m.workflows workflow_id status }
    match saveFails with
    | some msg =>
        (.error (.databaseError msg),
         { m1 with workflows := dctDel m1.workflows workflow_id })
    | none => (.ok status, { m1 with db := m1.db.save_workflow status })

/-- StateManager.get_workflow_status. -/
def StateManager.get_workflow_status (m : StateManager) (workflow_id : String) :
    Option WorkflowStatus :=
  dctGet? m.workflows workflow_id

/-- The in-place mutation of the cached record performed by
update_workflow_state before the store write: set the new state
unconditionally (no transition check), stamp started_at on a first
RUNNING, overwrite completed_at on every terminal transition, set
error_message when truthy. -/
def wfAfterUpdate (status0 : WorkflowStatus) (state : WorkflowState)
    (error_message : Option String) (now : Nat) : WorkflowStatus :=
  let status1 := { status0 with state := state }
  let status2 :=
    if state = .running ∧ status1.started_at = none then
      { status1 with started_at := some now }
    else if state = .completed ∨ state = .failed ∨ state = .cancelled then
      { status1 with completed_at := some now }
    else status1
  if truthyStr error_message then
    { status2 with error_message := error_message }
  else status2

def StateManager.update_workflow_state (m : StateManager)
    (saveFails : Option String) (workflow_id : String) (state : WorkflowState)
    (error_message : Option String) (now : Nat) :
    Except PyErr WorkflowStatus × StateManager :=
  match dctGet? m.workflows workflow_id with
  | none => (.error (.valueError ("工作流 " ++ workflow_id ++ " 不存在")), m)
  | some status0 =>
      let status3 := wfAfterUpdate status0 state error_message now
      let m1 : StateManager :=
        { m with workflows := dctSet m.workflows workflow_id status3 }
      match saveFails with
      | some msg => (.error (.databaseError msg), m1)
      | none => (.ok status3, { m1 with db := m1.db.save_workflow status3 })

/-- The in-place mutation of the cached step record performed by
update_step_state before the store write. -/
def stepAfterUpdate (step0 : StepStatus) (state : StepState)
    (error_message : Option String) (outputs : Option (Dct PyVal))
    (now : Nat) : StepStatus :=
  let step1 := { step0 with state := state }
  let step2 :=
    if state = .running ∧ step1.started_at = none then
      { step1 with started_at := some now }
    else if state = .completed ∨ state = .failed ∨ state = .skipped then
      { step1 with completed_at := some now }
    else step1
  let step3 :=
    if truthyStr error_message then
      { step2 with error_message := error_message }
    else step2
  match outputs with
  | some o =>
      if o ≠ [] then
        { step3 with outputs := dctUpdate step3.outputs o }
      else step3
  | none => step3

/-- StateManager.update_step_state: mutate the cached step record
(state, timestamps, error, merged outputs), then write through; on
DatabaseError the mutated record stays in the cache and the error
propagates (no rollback on this path). -/
def StateManager.update_step_state (m : StateManager)
    (saveFails : Option String) (workflow_id step_id : String)
    (state : StepState) (error_message : Option String)
    (outputs : Option (Dct PyVal)) (now : Nat) :
    Except PyErr StepStatus × StateManager :=
  match dctGet? m.workflows workflow_id with
  | none => (.error (.valueError ("工作流 " ++ workflow_id ++ " 不存在")), m)
  | some wf =>
      match dctGet? wf.steps step_id with
      | none => (.error (.valueError ("步骤 " ++ step_id ++ " 不存在")), m)
      | some step0 =>
          let step4 := stepAfterUpdate step0 state error_message outputs now
          let wf1 := { wf with steps := dctSet wf.steps step_id step4 }
          let m1 : StateManager :=
            { m with workflows := dctSet m.workflows workflow_id wf1 }
          match saveFails with
          | some msg => (.error (.databaseError msg), m1)
          | none => (.ok step4, { m1 with db := m1.db.save_workflow wf1 })

/-- StateManager.add_step: reject an existing step id, add the PENDING
step to the cached record, write through; on DatabaseError delete the
step again and propagate. -/
def StateManager.add_step (m : StateManager) (saveFails : Option String)
    (workflow_id step_id name : String) :
    Except PyErr StepStatus × StateManager :=
  match dctGet? m.workflows workflow_id with
  | none => (.error (.valueError ("工作流 " ++ workflow_id ++ " 不存在")), m)
  | some wf =>
      if dctContains wf.steps step_id then
        (.error (.valueError ("步骤 " ++ step_id ++ " 已存在")), m)
      else
        let step : StepStatus := { id := step_id, name := name, state := .pending }
        let wf1 := { wf with steps := dctSet wf.steps step_id step }
        let m1 : StateManager :=
          { m with workflows := dctSet m.workflows workflow_id wf1 }
        match saveFails with
        | some msg =>
            let wf2 := { wf1 with steps := dctDel wf1.steps step_id }
            (.error (.databaseError msg),
             { m1 with workflows := dctSet m1.workflows workflow_id wf2 })
        | none => (.ok step, { m1 with db := m1.db.save_workflow wf1 })

/-- database.py Database.list_workflows without filters: every workflow
row, materialized with its steps. -/
def DB.list_workflows (db : DB) : List WorkflowStatus :=
  db.workflows.map (fun kv => db.materialize kv.1 kv.2)

/-- StateManager.cleanup_completed_workflows: delegate to the store's
cleanup, then clear the cache and reload it from the store; a
DatabaseError propagates with the cache untouched. -/
def StateManager.cleanup_completed_workflows (m : StateManager)
    (cleanupFails : Option String) (cutoff : Nat) :
    Except PyErr Nat × StateManager :=
  match cleanupFails with
  | some msg => (.error (.databaseError msg), m)
  | none =>
      let r := m.db.cleanup_workflows cutoff
      (.ok r.1,
       { workflows := r.2.list_workflows.foldl (fun acc w => dctSet acc w.id w) [],
         db := r.2 })

/-! ## executor.py: WorkflowExecutor -/

/-- The outcome of executor.execute(step, inputs) for a dispatched step.
The three executors registered in the source always return a success
dict, but execute may raise (provider failures forced by the claims); an
environment fixes the behavior per executor key, dispatched step and
workflow inputs. codeEnv below is the literal source behavior. -/
abbrev ExecEnv : Type :=
  String → StepStatus → Dct PyVal → Except String (Dct PyVal)

/-- NodeOperationExecutor.execute (MVP simulation): always succeeds. -/
def NodeOperationExecutor.execute (step : StepStatus) (inputs : Dct PyVal) :
    Except String (Dct PyVal) :=
  .ok [("result", .vStr "success"),
       ("message", .vStr ("执行节点操作 " ++ step.name))]

/-- RelationshipOperationExecutor.execute: always succeeds. -/
def RelationshipOperationExecutor.execute (step : StepStatus)
    (inputs : Dct PyVal) : Except String (Dct PyVal) :=
  .ok [("result", .vStr "success"),
       ("message", .vStr ("执行关系操作 " ++ step.name))]

/-- InlineExecutor.execute: always succeeds. -/
def InlineExecutor.execute (step : StepStatus) (inputs : Dct PyVal) :
    Except String (Dct PyVal) :=
  .ok [("result", .vStr "success"),
       ("message", .vStr ("执行内联操作 " ++ step.name))]

/-- The literal behavior of the three executors registered in
WorkflowExecutor.__init__. -/
def codeEnv : ExecEnv := fun key step inputs =>
  if key = "node_operation" then NodeOperationExecutor.execute step inputs
  else if key = "relationship_operation" then
    RelationshipOperationExecutor.execute step inputs
  else InlineExecutor.execute step inputs

/-- self.executors.get(v): the registry lookup of _execute_step; only the
three string keys of WorkflowExecutor.__init__ are mapped. -/
def executorKey? (v : PyVal) : Option String :=
  match v with
  | .vStr s =>
      if s = "node_operation" ∨ s = "relationship_operation" ∨ s = "inline"
      then some s else none
  | _ => none

/-- str(x) for the value of an absent or present dict key (an f-string
prints None for an absent .get). -/
def pyStrOpt : Option PyVal → String
  | none => "None"
  | some v => pyStr v

/-- The except-branch of _execute_step: record the step FAILED with
str(e), then re-raise the original exception; if the FAILED write itself
raises, that error propagates instead. -/
def stepExcept (m : StateManager) (wid sid : String) (e : PyErr) (t : Nat) :
    StateManager × Nat × Option PyErr :=
  match m.update_step_state none wid sid .failed (some e.message) none t with
  | (.ok _, m2) => (m2, t + 1, some e)
  | (.error e2, m2) => (m2, t + 1, some e2)

/-- WorkflowExecutor._execute_step: mark the step RUNNING, look up the
executor under the step's recorded outputs['type'] (default 'inline'),
run it; on success mark COMPLETED merging the result into outputs, on
any exception mark FAILED with str(e) and re-raise. Returns the manager,
the advanced clock and the propagated exception, if any. -/
def WorkflowExecutor.execute_step (env : ExecEnv) (m : StateManager)
    (wid sid : String) (t : Nat) : StateManager × Nat × Option PyErr :=
  match m.update_step_state none wid sid .running none none t with
  | (.error e, m1) => (m1, t + 1, some e)
  | (.ok step, m1) =>
      match dctGet? m1.workflows wid with
      | none => (m1, t + 1, some (.valueError ("工作流 " ++ wid ++ " 不存在")))
      | some wf =>
          let typeVal := dctGet? step.outputs "type"
          match executorKey? (typeVal.getD (.vStr "inline")) with
          | none =>
              let msg := "未知的步骤类型: " ++ pyStrOpt typeVal
              stepExcept m1 wid sid (.executionError msg) (t + 1)
          | some key =>
              match env key step wf.inputs with
              | .error msg => stepExcept m1 wid sid (.exception msg) (t + 1)
              | .ok outs =>
                  match m1.update_step_state none wid sid .completed none
                      (some outs) (t + 1) with
                  | (.ok _, m2) => (m2, t + 2, none)
                  | (.error e, m2) => stepExcept m2 wid sid e (t + 2)

/-- WorkflowExecutor._get_executable_steps' dependency check for one
pending step: no other step may list it under outputs['on_success']
without being COMPLETED, nor under outputs['on_failure'] without being
FAILED. -/
def dependenciesMet (wf : WorkflowStatus) (sid : String) : Bool :=
  wf.steps.all (fun other =>
    if other.1 = sid then true
    else
      !(pyIn (.vStr sid) (dctGetD other.2.outputs "on_success" (strList []))
          && other.2.state != .completed) &&
      !(pyIn (.vStr sid) (dctGetD other.2.outputs "on_failure" (strList []))
          && other.2.state != .failed))

/-- WorkflowExecutor._get_executable_steps: the pending steps whose
dependencies are met, in pending order. -/
def WorkflowExecutor.get_executable_steps (wf : WorkflowStatus)
    (pending : List String) : List String :=
  pending.filter (dependenciesMet wf)

/-- One dispatch batch: a task per executable step, joined by
asyncio.gather; the tasks all run, and the first raised exception is
what the gather re-raises to the loop at the join. -/
def runBatch (env : ExecEnv) :
    List String → StateManager → String → Nat → StateManager × Nat × Option PyErr
  | [], m, _, t => (m, t, none)
  | sid :: rest, m, wid, t =>
      let r := WorkflowExecutor.execute_step env m wid sid t
      let r2 := runBatch env rest r.1 wid r.2.1
      (r2.1, r2.2.1, match r.2.2 with | some e => some e | none => r2.2.2)

/-- The while-loop of _execute_workflow_steps. fuel bounds the number of
iterations; each Python iteration removes at least one pending step, so
the loop runs at most |pending| iterations and every caller below passes
fuel larger than |pending| (fuel exhaustion is then unreachable). -/
def execLoop (env : ExecEnv) :
    Nat → StateManager → String → List String → Nat →
      StateManager × Nat × Option PyErr
  | 0, m, _, _, t => (m, t, some (.exception "fuel exhausted"))
  | fuel + 1, m, wid, pending, t =>
      match pending with
      | [] => (m, t, none)
      | _ =>
          match dctGet? m.workflows wid with
          | none => (m, t, some (.valueError ("工作流 " ++ wid ++ " 不存在")))
          | some wf =>
              match WorkflowExecutor.get_executable_steps wf pending with
              | [] => (m, t, some (.executionError "检测到循环依赖或无法执行的步骤"))
              | ex =>
                  let r := runBatch env ex m wid t
                  match r.2.2 with
                  | some e => (r.1, r.2.1, some e)
                  | none =>
                      execLoop env fuel r.1 wid
                        (pending.filter (fun sid => !(ex.contains sid))) r.2.1

/-- The except-branch of _execute_workflow_steps: record the workflow
FAILED with str(e) and re-raise; a failure of the FAILED write itself
propagates instead. -/
def wfExcept (m : StateManager) (wid : String) (e : PyErr) (t : Nat) :
    StateManager × Nat × Option PyErr :=
  match m.update_workflow_state none wid .failed (some e.message) t with
  | (.ok _, m2) => (m2, t + 1, some e)
  | (.error e2, m2) => (m2, t + 1, some e2)

/-- WorkflowExecutor._execute_workflow_steps: mark RUNNING, run the
dispatch loop over the initially PENDING steps; on normal exit mark
COMPLETED, on any exception mark FAILED with str(e) and re-raise. -/
def WorkflowExecutor.execute_workflow_steps (env : ExecEnv)
    (m : StateManager) (wid : String) (t : Nat) (fuel : Nat) :
    StateManager × Nat × Option PyErr :=
  match m.update_workflow_state none wid .running none t with
  | (.error e, m1) => (m1, t + 1, some e)
  | (.ok wf, m1) =>
      let pending := (wf.steps.filter (fun kv => kv.2.state == .pending)).map
        Prod.fst
      let r := execLoop env fuel m1 wid pending (t + 1)
      match r.2.2 with
      | none =>
          match r.1.update_workflow_state none wid .completed none r.2.1 with
          | (.ok _, m2) => (m2, r.2.1 + 1, none)
          | (.error e, m2) => wfExcept m2 wid e (r.2.1 + 1)
      | some e => wfExcept r.1 wid e r.2.1

/-- WorkflowExecutor.execute_workflow: require state CREATED, mark
PENDING, await the step task; a raised exception has been recorded as
workflow FAILED by _execute_workflow_steps and is recorded again (and
swallowed) by the except branch here, which does not re-raise. -/
def WorkflowExecutor.execute_workflow (env : ExecEnv) (m : StateManager)
    (wid : String) (t : Nat) (fuel : Nat) :
    StateManager × Nat × Option PyErr :=
  match m.get_workflow_status wid with
  | none => (m, t, some (.executionError ("工作流 " ++ wid ++ " 不存在")))
  | some wf =>
      if wf.state ≠ .created then
        (m, t, some (.executionError ("工作流 " ++ wid ++ " 状态不正确")))
      else
        match m.update_workflow_state none wid .pending none t with
        | (.error e, m1) => (m1, t + 1, some e)
        | (.ok _, m1) =>
            let r := WorkflowExecutor.execute_workflow_steps env m1 wid
              (t + 1) fuel
            match r.2.2 with
            | none => r
            | some e =>
                match r.1.update_workflow_state none wid .failed
                    (some e.message) r.2.1 with
                | (.ok _, m2) => (m2, r.2.1 + 1, none)
                | (.error e2, m2) => (m2, r.2.1 + 1, some e2)

/-! ## cloud/errors.py, cloud/base.py, mock provider -/

/-- cloud/errors.py error classes (plus ValueError/KeyError raised by the
config layer). -/
inductive CloudErr where
  | cloudError (msg : String)
  | configError (msg : String)
  | connectionError (msg : String)
  | deploymentError (msg : String)
  | operationError (msg : String)
  | notFoundError (msg : String)
  | valueError (msg : String)
  | keyError (msg : String)
  deriving Repr, DecidableEq

/-- base.py ResourceStatus dataclass. -/
structure ResourceStatus where
  id : String
  name : String
  type : String
  state : String
  created_at : Nat
  updated_at : Nat
  metadata : Dct PyVal
  deriving Repr, DecidableEq

/-- base.py DeploymentStatus dataclass. -/
structure DeploymentStatus where
  id : String
  name : String
  state : String
  resources : List ResourceStatus
  created_at : Nat
  started_at : Option Nat
  completed_at : Option Nat
  error_message : Option String
  metadata : Dct PyVal
  deriving Repr, DecidableEq

/-- mock/provider.py MockCloudProvider: its connection flag and the five
per-deployment dicts. -/
structure MockCloudProvider where
  connected : Bool
  deployments : Dct DeploymentStatus
  resources : Dct (Dct ResourceStatus)
  operations : Dct (List PyVal)
  logs : Dct (List String)
  metrics : Dct (Dct PyVal)
  deriving Repr, DecidableEq

/-- MockCloudProvider.delete_deployment: raise ConnectionError when not
connected, NotFoundError when the id is unknown; otherwise mark the
deployment deleting, log, simulate the delay, then delete the id from
all five dicts. -/
def MockCloudProvider.delete_deployment (p : MockCloudProvider)
    (deployment_id : String) (now : Nat) : Except CloudErr MockCloudProvider :=
  if !p.connected then .error (.connectionError "未连接到云平台")
  else
    match dctGet? p.deployments deployment_id with
    | none => .error (.notFoundError ("未找到部署 " ++ deployment_id))
    | some d =>
        let d1 := { d with state := "deleting" }
        let p1 := { p with
          deployments := dctSet p.deployments deployment_id d1
          logs := dctSet p.logs deployment_id
            (dctGetD p.logs deployment_id [] ++
              ["[" ++ isoString now ++ "] 开始删除部署"]) }
        .ok { connected := p1.connected
              deployments := dctDel p1.deployments deployment_id
              resources := dctDel p1.resources deployment_id
              operations := dctDel p1.operations deployment_id
              logs := dctDel p1.logs deployment_id
              metrics := dctDel p1.metrics deployment_id }

/-! ## cloud/config.py and cloud/factory.py -/

/-- config.py CloudConfig dataclass (the properties-is-None
normalization of post-init is folded into the default). -/
structure CloudConfig where
  type : String
  name : String
  description : Option String := none
  enabled : Bool := true
  default : Bool := false
  timeout : Int := 300
  retry_count : Int := 3
  retry_interval : Int := 5
  properties : Dct PyVal := []
  deriving Repr, DecidableEq

/-- CloudConfig.validate: reject an empty type or name, a non-positive
timeout, a negative retry_count, a non-positive retry_interval. -/
def CloudConfig.validate (c : CloudConfig) : Except CloudErr Unit :=
  if c.type = "" then .error (.valueError "云平台类型不能为空")
  else if c.name = "" then .error (.valueError "云平台名称不能为空")
  else if c.timeout ≤ 0 then .error (.valueError "超时时间必须大于0")
  else if c.retry_count < 0 then .error (.valueError "重试次数不能小于0")
  else if c.retry_interval ≤ 0 then .error (.valueError "重试间隔必须大于0")
  else .ok ()

/-- factory.py CloudProviderFactory class state: the registered provider
type tags, the named configurations, the instantiated provider names
(instances themselves are opaque) and the current default name. -/
structure CloudProviderFactory where
  providers : List String
  configs : Dct CloudConfig
  instances : List String
  default_provider : Option String
  deriving Repr, DecidableEq

/-- CloudProviderFactory.register_config: validate first, reject a
duplicate name or unknown type, store the config, and when it is marked
default demote the previous default and point at the new one. -/
def CloudProviderFactory.register_config (f : CloudProviderFactory)
    (config : CloudConfig) : Except CloudErr CloudProviderFactory :=
  match config.validate with
  | .error e => .error e
  | .ok _ =>
      if dctContains f.configs config.name then
        .error (.configError ("云平台 " ++ config.name ++ " 已经配置"))
      else if !(f.providers.contains config.type) then
        .error (.configError ("未知的云平台类型 " ++ config.type))
      else
        let f1 := { f with configs := dctSet f.configs config.name config }
        if config.default then
          match f1.default_provider with
          | some old =>
              if old ≠ config.name then
                match dctGet? f1.configs old with
                | some oldc =>
                    .ok { f1 with
                          configs := dctSet f1.configs old
                            { oldc with default := false }
                          default_provider := some config.name }
                | none => .error (.keyError old)
              else .ok { f1 with default_provider := some config.name }
          | none => .ok { f1 with default_provider := some config.name }
        else .ok f1

/-! ## Claims -/

/-- C7: cleanup_workflows removes exactly the workflows whose status is
terminal and whose completed_at is at most the cutoff (now minus the
retention window), removes exactly their step rows with them, leaves
every other workflow untouched, returns the number removed; and run
again over the quiescent store it removes nothing (idempotence). -/
theorem claim_C7_cleanup_exact_idempotent (db : DB) (cutoff : Nat)
    (h : (db.workflows.map Prod.fst).Nodup) :
    (db.cleanup_workflows cutoff).1 =
        (db.workflows.filter (fun kv => wfExpired cutoff kv.2)).length ∧
    (db.cleanup_workflows cutoff).2.workflows =
        db.workflows.filter (fun kv => !(wfExpired cutoff kv.2)) ∧
    (db.cleanup_workflows cutoff).2.steps =
        db.steps.filter (fun kv =>
          (db.workflows.filter (fun q => wfExpired cutoff q.2)).all
            (fun q => kv.2.workflow_id != q.1)) ∧
    (db.cleanup_workflows cutoff).2.cleanup_workflows cutoff =
      (0, (db.cleanup_workflows cutoff).2) := by
  obtain ⟨h1, h2, h3⟩ := DB.cleanup_spec db cutoff h
  exact ⟨h1, h2, h3, DB.cleanup_idempotent db cutoff h⟩

def fixC7_old : WorkflowRow :=
  { name := "old", state := .completed, created_at := 0, started_at := some 1,
    completed_at := some 3, error_message := none, inputs := [],
    outputs := [], metadata := [] }

def fixC7_new : WorkflowRow :=
  { name := "new", state := .running, created_at := 4, started_at := some 4,
    completed_at := none, error_message := none, inputs := [],
    outputs := [], metadata := [] }

def fixC7_s (wid : String) : StepRow :=
  { workflow_id := wid, name := "s", state := .completed, started_at := none,
    completed_at := none, error_message := none, outputs := [],
    retry_count := 0, max_retries := 3 }

def fixC7_db : DB :=
  { workflows := [("old", fixC7_old), ("new", fixC7_new)],
    steps := [("s1", fixC7_s "old"), ("s2", fixC7_s "new")] }

/-- Witness for C7 at a concrete store with one expired and one live
workflow. -/
theorem claim_C7_witness :
    (fixC7_db.workflows.map Prod.fst).Nodup ∧
    ((fixC7_db.cleanup_workflows 5).1 =
        (fixC7_db.workflows.filter (fun kv => wfExpired 5 kv.2)).length ∧
    (fixC7_db.cleanup_workflows 5).2.workflows =
        fixC7_db.workflows.filter (fun kv => !(wfExpired 5 kv.2)) ∧
    (fixC7_db.cleanup_workflows 5).2.steps =
        fixC7_db.steps.filter (fun kv =>
          (fixC7_db.workflows.filter (fun q => wfExpired 5 q.2)).all
            (fun q => kv.2.workflow_id != q.1)) ∧
    (fixC7_db.cleanup_workflows 5).2.cleanup_workflows 5 =
      (0, (fixC7_db.cleanup_workflows 5).2)) :=
  ⟨by decide, claim_C7_cleanup_exact_idempotent fixC7_db 5 (by decide)⟩

def fixC8_w1 : WorkflowStatus :=
  { id := "w", name := "a", state := .created, created_at := 0 }

def fixC8_w2 : WorkflowStatus :=
  { id := "w", name := "b", state := .created, created_at := 0 }

/-- C8 counterexample: saving a value whose id already has a row (here:
after an earlier save under the same id with a different name) and then
loading does not return the saved value, because save_workflow's update
branch never writes name (nor created_at, nor a step's max_retries);
load-after-save is not the identity on every store state. -/
theorem claim_C8_counterexample :
    ((DB.empty.save_workflow fixC8_w1).save_workflow fixC8_w2).load_workflow "w"
      ≠ some fixC8_w2 := by decide

/-- C8 amended: save-then-load is the identity whenever the workflow id
and its step ids are fresh in the store (the insert branches write every
field); and the to_dict/from_dict serialization pair is the identity,
step-for-step. Both under the Python dict invariants: distinct step keys
and each step record carrying its key as id. -/
theorem claim_C8_roundtrip (db : DB) (w : WorkflowStatus)
    (hw : dctGet? db.workflows w.id = none)
    (hs : ∀ p ∈ w.steps, dctGet? db.steps p.1 = none)
    (hforeign : ∀ p ∈ db.steps, p.2.workflow_id ≠ w.id)
    (hnodup : (w.steps.map Prod.fst).Nodup)
    (hids : ∀ p ∈ w.steps, p.2.id = p.1) :
    (db.save_workflow w).load_workflow w.id = some w ∧
    WorkflowStatus.from_dict w.to_dict = some w :=
  ⟨DB.load_save_fresh db w hw hs hforeign hnodup hids,
   WorkflowStatus.from_dict_to_dict_workflow w hnodup⟩

def fixC8_w3 : WorkflowStatus :=
  { id := "w", name := "a", state := .running, created_at := 0,
    started_at := some 1, error_message := some "e",
    inputs := [("x", .vInt 1)], outputs := [], metadata := [],
    steps := [("s1",
      { id := "s1", name := "n", state := .running, started_at := some 2,
        outputs := [("k", .vStr "v")], retry_count := 1, max_retries := 3 })] }

/-- Witness for C8 at a concrete value over the empty store. -/
theorem claim_C8_roundtrip_witness :
    (dctGet? DB.empty.workflows fixC8_w3.id = none ∧
     (∀ p ∈ fixC8_w3.steps, dctGet? DB.empty.steps p.1 = none) ∧
     (∀ p ∈ DB.empty.steps, p.2.workflow_id ≠ fixC8_w3.id) ∧
     (fixC8_w3.steps.map Prod.fst).Nodup ∧
     (∀ p ∈ fixC8_w3.steps, p.2.id = p.1)) ∧
    ((DB.empty.save_workflow fixC8_w3).load_workflow fixC8_w3.id =
        some fixC8_w3 ∧
      WorkflowStatus.from_dict fixC8_w3.to_dict = some fixC8_w3) :=
  ⟨⟨by decide, by decide, by decide, by decide, by decide⟩,
   claim_C8_roundtrip DB.empty fixC8_w3 (by decide) (by decide) (by decide)
     (by decide) (by decide)⟩

/-- C9: a configuration with timeout at most zero (or negative
retry_count, or retry_interval at most zero) is rejected at
configuration time: validate raises ValueError, and register_config
(which validates first) never registers it. -/
theorem claim_C9_invalid_config_rejected (f : CloudProviderFactory)
    (c : CloudConfig)
    (h : c.timeout ≤ 0 ∨ c.retry_count < 0 ∨ c.retry_interval ≤ 0) :
    (∃ e, c.validate = .error e) ∧ ∀ f2, f.register_config c ≠ .ok f2 := by
  have hv : ∃ e, c.validate = .error e := by
    unfold CloudConfig.validate
    rcases h with h | h | h <;> split_ifs <;>
      first
        | exact ⟨_, rfl⟩
        | omega
  obtain ⟨e, he⟩ := hv
  refine ⟨⟨e, he⟩, ?_⟩
  intro f2 hreg
  unfold CloudProviderFactory.register_config at hreg
  rw [he] at hreg
  exact Except.noConfusion hreg

def fixC9_factory : CloudProviderFactory :=
  { providers := ["mock"], configs := [], instances := [],
    default_provider := none }

def fixC9_config : CloudConfig := { type := "mock", name := "m", timeout := 0 }

/-- Witness for C9 at a zero timeout. -/
theorem claim_C9_witness :
    (fixC9_config.timeout ≤ 0 ∨ fixC9_config.retry_count < 0 ∨
      fixC9_config.retry_interval ≤ 0) ∧
    ((∃ e, fixC9_config.validate = .error e) ∧
      ∀ f2, fixC9_factory.register_config fixC9_config ≠ .ok f2) :=
  ⟨by decide,
   claim_C9_invalid_config_rejected fixC9_factory fixC9_config (by decide)⟩

def fixC4_wf : WorkflowStatus :=
  { id := "w", name := "w", state := .created, created_at := 0,
    steps := [("s1", { id := "s1", name := "s1", state := .pending })] }

def fixC4_m : StateManager :=
  { workflows := [("w", fixC4_wf)], db := DB.empty }

/-- C4 counterexample: a failing store write under update_workflow_state
propagates the DatabaseError but leaves the already-mutated record in
the cache — the CREATED workflow is cached as RUNNING afterwards, so the
cache is not restored to its pre-write value. -/
theorem claim_C4_counterexample :
    (fixC4_m.update_workflow_state (some "disk full") "w" .running none 1).1 =
        .error (.databaseError "disk full") ∧
    (fixC4_m.update_workflow_state (some "disk full") "w" .running none 1).2.workflows
        ≠ fixC4_m.workflows ∧
    (dctGet? (fixC4_m.update_workflow_state (some "disk full") "w" .running
        none 1).2.workflows "w").map WorkflowStatus.state =
      some .running := by decide

/-- C4 amended: when the store write raises, create_workflow and
add_step restore the cache to its exact pre-write value and propagate
the error, but update_workflow_state and update_step_state propagate the
error with the mutated record left in the cache (no rollback on the
update paths). -/
theorem claim_C4_rollback_only_on_insert_paths (m : StateManager)
    (msg : String) (nid nm : String) (inp : Dct PyVal) (now : Nat)
    (wid : String) (wf : WorkflowStatus) (sid snm : String)
    (usid : String) (ustep : StepStatus) (stw : WorkflowState)
    (sts : StepState) (em : Option String) (outs : Option (Dct PyVal))
    (hnew : dctGet? m.workflows nid = none)
    (hwf : dctGet? m.workflows wid = some wf)
    (hsid : dctGet? wf.steps sid = none)
    (husid : dctGet? wf.steps usid = some ustep) :
    m.create_workflow (some msg) nid nm inp now =
      (.error (.databaseError msg), m) ∧
    m.add_step (some msg) wid sid snm = (.error (.databaseError msg), m) ∧
    ((m.update_workflow_state (some msg) wid stw em now).1 =
        .error (.databaseError msg) ∧
      dctGet? (m.update_workflow_state (some msg) wid stw em now).2.workflows
          wid = some (wfAfterUpdate wf stw em now)) ∧
    ((m.update_step_state (some msg) wid usid sts em outs now).1 =
        .error (.databaseError msg) ∧
      (dctGet? (m.update_step_state (some msg) wid usid sts em outs
            now).2.workflows wid).map (fun w1 => dctGet? w1.steps usid) =
        some (some (stepAfterUpdate ustep sts em outs now))) := by
  refine ⟨?_, ?_, ?_, ?_⟩
  · have hc : dctContains m.workflows nid = false := by
      simp [dctContains, hnew]
    simp [StateManager.create_workflow, hc, dctDel_set_fresh _ _ _ hnew]
  · have hc : dctContains wf.steps sid = false := by
      simp [dctContains, hsid]
    simp [StateManager.add_step, hwf, hc, dctDel_set_fresh _ _ _ hsid,
          dctSet_set, dctSet_eq_of_get _ _ _ hwf]
  · constructor
    · simp [StateManager.update_workflow_state, hwf]
    · simp [StateManager.update_workflow_state, hwf, dctGet?_set_eq]
  · constructor
    · simp [StateManager.update_step_state, hwf, husid]
    · simp [StateManager.update_step_state, hwf, husid, dctGet?_set_eq]

/-- Witness for C4 at a concrete manager. -/
theorem claim_C4_witness :
    (dctGet? fixC4_m.workflows "w2" = none ∧
     dctGet? fixC4_m.workflows "w" = some fixC4_wf ∧
     dctGet? fixC4_wf.steps "s2" = none ∧
     dctGet? fixC4_wf.steps "s1" =
       some { id := "s1", name := "s1", state := .pending }) ∧
    (fixC4_m.create_workflow (some "io") "w2" "n" [] 7 =
        (.error (.databaseError "io"), fixC4_m) ∧
    fixC4_m.add_step (some "io") "w" "s2" "n" =
        (.error (.databaseError "io"), fixC4_m) ∧
    ((fixC4_m.update_workflow_state (some "io") "w" .running none 7).1 =
        .error (.databaseError "io") ∧
      dctGet? (fixC4_m.update_workflow_state (some "io") "w" .running none
          7).2.workflows "w" = some (wfAfterUpdate fixC4_wf .running none 7)) ∧
    ((fixC4_m.update_step_state (some "io") "w" "s1" .running none none 7).1 =
        .error (.databaseError "io") ∧
      (dctGet? (fixC4_m.update_step_state (some "io") "w" "s1" .running none
            none 7).2.workflows "w").map (fun w1 => dctGet? w1.steps "s1") =
        some (some (stepAfterUpdate
          { id := "s1", name := "s1", state := .pending } .running none none
          7)))) :=
  ⟨⟨by decide, by decide, by decide, by decide⟩,
   claim_C4_rollback_only_on_insert_paths fixC4_m "io" "w2" "n" [] 7 "w"
     fixC4_wf "s2" "n" "s1" { id := "s1", name := "s1", state := .pending }
     .running .running none none (by decide) (by decide) (by decide)
     (by decide)⟩

def fixC5_wf : WorkflowStatus :=
  { id := "w", name := "w", state := .completed, created_at := 0,
    completed_at := some 5 }

def fixC5_m : StateManager :=
  { workflows := [("w", fixC5_wf)], db := DB.empty }

/-- C5 counterexample: a COMPLETED (terminal) workflow is transitioned
to RUNNING by update_workflow_state without any rejection, and a further
terminal transition overwrites its completed_at (5 becomes 9) — terminal
status and completed_at do change afterwards. -/
theorem claim_C5_counterexample :
    (dctGet? (fixC5_m.update_workflow_state none "w" .running none
        9).2.workflows "w").map WorkflowStatus.state = some .running ∧
    (dctGet? (fixC5_m.update_workflow_state none "w" .failed none
        9).2.workflows "w").map WorkflowStatus.completed_at =
      some (some 9) := by decide

/-- C5 amended: update_workflow_state enforces no state machine — every
transition out of a terminal status is accepted and stored — and each
terminal transition overwrites completed_at with the current time
(started_at is stamped only on a first RUNNING). -/
theorem claim_C5_terminal_not_protected (m : StateManager) (wid : String)
    (wf : WorkflowStatus) (st : WorkflowState) (em : Option String)
    (now : Nat) (hwf : dctGet? m.workflows wid = some wf)
    (hterm : wf.state = .completed ∨ wf.state = .failed ∨
      wf.state = .cancelled) :
    (m.update_workflow_state none wid st em now).1 =
      .ok (wfAfterUpdate wf st em now) ∧
    (wfAfterUpdate wf st em now).state = st ∧
    ((st = .completed ∨ st = .failed ∨ st = .cancelled) →
      (wfAfterUpdate wf st em now).completed_at = some now) := by
  refine ⟨?_, ?_, ?_⟩
  · simp [StateManager.update_workflow_state, hwf]
  · simp only [wfAfterUpdate]
    split_ifs <;> rfl
  · intro hst
    have hrun : ¬(st = .running ∧ wf.started_at = none) := by
      rcases hst with h | h | h <;> subst h <;> simp
    simp only [wfAfterUpdate]
    split_ifs <;> simp_all

/-- Witness for C5: a COMPLETED workflow moved to FAILED. -/
theorem claim_C5_witness :
    (dctGet? fixC5_m.workflows "w" = some fixC5_wf ∧
      (fixC5_wf.state = .completed ∨ fixC5_wf.state = .failed ∨
        fixC5_wf.state = .cancelled)) ∧
    ((fixC5_m.update_workflow_state none "w" .failed none 9).1 =
        .ok (wfAfterUpdate fixC5_wf .failed none 9) ∧
      (wfAfterUpdate fixC5_wf .failed none 9).state = .failed ∧
      ((WorkflowState.failed = .completed ∨ WorkflowState.failed = .failed ∨
          WorkflowState.failed = .cancelled) →
        (wfAfterUpdate fixC5_wf .failed none 9).completed_at = some 9)) :=
  ⟨⟨by decide, by decide⟩,
   claim_C5_terminal_not_protected fixC5_m "w" fixC5_wf .failed none 9
     (by decide) (by decide)⟩

def fixC6_dep : DeploymentStatus :=
  { id := "d", name := "d", state := "running", resources := [],
    created_at := 0, started_at := some 0, completed_at := none,
    error_message := none, metadata := [] }

def fixC6_p : MockCloudProvider :=
  { connected := true, deployments := [("d", fixC6_dep)],
    resources := [("d", [])], operations := [("d", [])],
    logs := [("d", [])], metrics := [("d", [])] }

/-- C6 counterexample: delete_deployment raises NotFoundError on an
unknown id, and calling it a second time after a successful delete
raises NotFoundError as well — the call is not an idempotent no-op. -/
theorem claim_C6_counterexample :
    fixC6_p.delete_deployment "nope" 0 =
      .error (.notFoundError "未找到部署 nope") ∧
    (fixC6_p.delete_deployment "d" 0).toOption.map
        (fun p1 => p1.delete_deployment "d" 1) =
      some (.error (.notFoundError "未找到部署 d")) := by decide

/-- C6 amended: the mock provider's delete_deployment raises
NotFoundError for an id not among the deployments, and after a
successful delete the id is gone, so a second delete raises
NotFoundError: deletion is not idempotent. -/
theorem claim_C6_delete_raises_not_found (p : MockCloudProvider)
    (id2 : String) (now now2 : Nat) (hconn : p.connected = true)
    (hnodup : (p.deployments.map Prod.fst).Nodup) :
    (dctGet? p.deployments id2 = none →
      p.delete_deployment id2 now =
        .error (.notFoundError ("未找到部署 " ++ id2))) ∧
    (∀ p1, p.delete_deployment id2 now = .ok p1 →
      p1.delete_deployment id2 now2 =
        .error (.notFoundError ("未找到部署 " ++ id2))) := by
  constructor
  · intro habs
    simp [MockCloudProvider.delete_deployment, hconn, habs]
  · intro p1 hdel
    unfold MockCloudProvider.delete_deployment at hdel
    rw [hconn] at hdel
    simp only [Bool.not_true, Bool.false_eq_true, if_false] at hdel
    match hd : dctGet? p.deployments id2 with
    | none => rw [hd] at hdel; exact Except.noConfusion hdel
    | some d =>
        rw [hd] at hdel
        simp only [Except.ok.injEq] at hdel
        have hkeys : ((dctSet p.deployments id2
            { d with state := "deleting" }).map Prod.fst).Nodup := by
          rw [keys_dctSet_of_mem p.deployments id2 d _ hd]
          exact hnodup
        have hgone : dctGet? p1.deployments id2 = none := by
          rw [← hdel]
          exact dctGet?_del_self_of_nodup _ id2 hkeys
        have hconn1 : p1.connected = true := by
          rw [← hdel]
        simp [MockCloudProvider.delete_deployment, hconn1, hgone]

/-- Witness for C6 at a concrete connected provider. -/
theorem claim_C6_witness :
    (fixC6_p.connected = true ∧
      (fixC6_p.deployments.map Prod.fst).Nodup) ∧
    ((dctGet? fixC6_p.deployments "x" = none →
      fixC6_p.delete_deployment "x" 0 =
        .error (.notFoundError ("未找到部署 " ++ "x"))) ∧
    (∀ p1, fixC6_p.delete_deployment "x" 0 = .ok p1 →
      p1.delete_deployment "x" 1 =
        .error (.notFoundError ("未找到部署 " ++ "x")))) :=
  ⟨⟨by decide, by decide⟩,
   claim_C6_delete_raises_not_found fixC6_p "x" 0 1 (by decide) (by decide)⟩

def fixC1_s1 : StepStatus :=
  { id := "s1", name := "s1", state := .pending,
    outputs := [("on_failure", strList ["s2"])] }

def fixC1_s2 : StepStatus := { id := "s2", name := "s2", state := .pending }

def fixC1_wf : WorkflowStatus :=
  { id := "w", name := "w", state := .created, created_at := 0,
    steps := [("s1", fixC1_s1), ("s2", fixC1_s2)] }

def fixC1_m : StateManager :=
  { workflows := [("w", fixC1_wf)], db := DB.empty }

def fixC1_env : ExecEnv := fun _ step _ =>
  if step.id = "s1" then .error "boom" else .ok []

/-- C1: executing the workflow s1 --on_failure--> s2 with s1's execute
raising: the engine records s1 FAILED, but the exception then propagates
through the gather, the dispatch loop aborts, and the workflow ends
FAILED with s2 never dispatched (still PENDING) — not the claimed
dispatch of s2 and terminal COMPLETED. The on_failure eligibility branch
of _get_executable_steps is unreachable because every step failure
aborts the loop (the run below also carries s1's "boom" as the workflow
error). -/
theorem claim_C1_failure_handler_unreachable :
    ((WorkflowExecutor.execute_workflow fixC1_env fixC1_m "w" 0 5).1.get_workflow_status
        "w").map (fun wf =>
      (wf.state, wf.error_message, (dctGet? wf.steps "s1").map StepStatus.state,
        (dctGet? wf.steps "s2").map StepStatus.state)) =
      some (.failed, some "boom", some .failed, some .pending) := by decide

theorem update_step_state_ok (m : StateManager) (wid sid : String)
    (st : StepState) (em : Option String) (outs : Option (Dct PyVal))
    (now : Nat) (wf : WorkflowStatus) (step : StepStatus)
    (hwf : dctGet? m.workflows wid = some wf)
    (hstep : dctGet? wf.steps sid = some step) :
    m.update_step_state none wid sid st em outs now =
      (.ok (stepAfterUpdate step st em outs now),
       { workflows :=
           dctSet m.workflows wid
             { wf with
               steps := dctSet wf.steps sid (stepAfterUpdate step st em outs now) }
         db :=
           m.db.save_workflow
             { wf with
               steps := dctSet wf.steps sid (stepAfterUpdate step st em outs now) } }) := by
  simp [StateManager.update_step_state, hwf, hstep]

theorem stepAfterUpdate_running (step : StepStatus) (now : Nat) :
    stepAfterUpdate step .running none none now =
      { step with
        state := .running
        started_at := if step.started_at = none then some now else step.started_at } := by
  by_cases h : step.started_at = none <;>
    simp [stepAfterUpdate, truthyStr, h]

theorem stepAfterUpdate_failed (step : StepStatus) (msg : String) (now : Nat)
    (hmsg : msg ≠ "") :
    stepAfterUpdate step .failed (some msg) none now =
      { step with
        state := .failed
        completed_at := some now
        error_message := some msg } := by
  simp [stepAfterUpdate, truthyStr, hmsg]

theorem stepAfterUpdate_completed (step : StepStatus) (outs : Dct PyVal)
    (now : Nat) (house : outs ≠ []) :
    stepAfterUpdate step .completed none (some outs) now =
      { step with
        state := .completed
        completed_at := some now
        outputs := dctUpdate step.outputs outs } := by
  simp [stepAfterUpdate, truthyStr, house]

theorem stepExcept_eq (m : StateManager) (wid sid : String) (e : PyErr)
    (t : Nat) (wf : WorkflowStatus) (step : StepStatus)
    (hwf : dctGet? m.workflows wid = some wf)
    (hstep : dctGet? wf.steps sid = some step) :
    stepExcept m wid sid e t =
      ({ workflows :=
           dctSet m.workflows wid
             { wf with
               steps := dctSet wf.steps sid (stepAfterUpdate step .failed (some e.message) none t) }
         db :=
           m.db.save_workflow
             { wf with
               steps := dctSet wf.steps sid (stepAfterUpdate step .failed (some e.message) none t) } },
       t + 1, some e) := by
  simp [stepExcept,
        update_step_state_ok m wid sid .failed (some e.message) none t wf
          step hwf hstep]

/-- What _execute_step does, as a function of the executor lookup and
the environment's outcome, for a workflow and step present in the
cache. -/
theorem execute_step_eq (env : ExecEnv) (m : StateManager) (wid sid : String)
    (t : Nat) (wf : WorkflowStatus) (step : StepStatus)
    (hwf : dctGet? m.workflows wid = some wf)
    (hstep : dctGet? wf.steps sid = some step) :
    WorkflowExecutor.execute_step env m wid sid t =
      (let sR := stepAfterUpdate step .running none none t
       let wfR := { wf with steps := dctSet wf.steps sid sR }
       let m1 : StateManager :=
         { workflows := dctSet m.workflows wid wfR,
           db := m.db.save_workflow wfR }
       match executorKey? ((dctGet? step.outputs "type").getD (.vStr "inline")) with
       | none =>
           stepExcept m1 wid sid
             (.executionError ("未知的步骤类型: " ++
               pyStrOpt (dctGet? step.outputs "type"))) (t + 1)
       | some key =>
           match env key sR wf.inputs with
           | .error msg => stepExcept m1 wid sid (.exception msg) (t + 1)
           | .ok outs =>
               match m1.update_step_state none wid sid .completed none
                   (some outs) (t + 1) with
               | (.ok _, m2) => (m2, t + 2, none)
               | (.error e, m2) => stepExcept m2 wid sid e (t + 2)) := by
  have h1 := update_step_state_ok m wid sid .running none none t wf step
    hwf hstep
  have houts : (stepAfterUpdate step .running none none t).outputs =
      step.outputs := by
    rw [stepAfterUpdate_running]
  have hwfR :
      dctGet?
        (dctSet m.workflows wid
          { wf with
            steps := dctSet wf.steps sid (stepAfterUpdate step .running none none t) }) wid =
      some
        { wf with
          steps := dctSet wf.steps sid (stepAfterUpdate step .running none none t) } :=
    dctGet?_set_eq _ _ _
  simp only [WorkflowExecutor.execute_step, h1, hwfR, houts]

def fixC3_step : StepStatus := { id := "s1", name := "s1", state := .pending }

def fixC3_wf : WorkflowStatus :=
  { id := "w", name := "w", state := .running, created_at := 0,
    steps := [("s1", fixC3_step)] }

def fixC3_m : StateManager :=
  { workflows := [("w", fixC3_wf)], db := DB.empty }

/-- C3 counterexample: a step whose execute raises once, with
retry_count 0 and max_retries 3 (retries far from exhausted), is marked
FAILED immediately with the exception message, its retry_count still 0 —
no increment, no delay, no re-dispatch ever happens. -/
theorem claim_C3_counterexample :
    ((WorkflowExecutor.execute_step (fun _ _ _ => .error "boom") fixC3_m "w"
        "s1" 0).1.get_workflow_status "w").map (fun wf =>
      (dctGet? wf.steps "s1").map (fun s =>
        (s.state, s.retry_count, s.max_retries, s.error_message))) =
      some (some (.failed, 0, 3, some "boom")) := by decide

/-- C3 amended: when a step's execute raises, _execute_step marks the
step FAILED at once with the exception message and re-raises;
retry_count is never incremented (it keeps its previous value) and no
re-dispatch takes place. -/
theorem claim_C3_no_retry (env : ExecEnv) (m : StateManager)
    (wid sid : String) (t : Nat) (msg k : String) (wf : WorkflowStatus)
    (step : StepStatus)
    (hwf : dctGet? m.workflows wid = some wf)
    (hstep : dctGet? wf.steps sid = some step)
    (hkey : executorKey? ((dctGet? step.outputs "type").getD (.vStr "inline")) =
      some k)
    (henv : ∀ key s i, env key s i = .error msg)
    (hmsg : msg ≠ "") :
    (WorkflowExecutor.execute_step env m wid sid t).2.2 =
      some (.exception msg) ∧
    ∃ wf1, dctGet? (WorkflowExecutor.execute_step env m wid sid
        t).1.workflows wid = some wf1 ∧
    ∃ s1, dctGet? wf1.steps sid = some s1 ∧
      s1.state = .failed ∧ s1.error_message = some msg ∧
      s1.retry_count = step.retry_count ∧ s1.completed_at = some (t + 1) := by
  have hstepR :
      dctGet? (dctSet wf.steps sid (stepAfterUpdate step .running none none t))
        sid = some (stepAfterUpdate step .running none none t) :=
    dctGet?_set_eq _ _ _
  have hwfR :
      dctGet?
        (dctSet m.workflows wid
          { wf with
            steps := dctSet wf.steps sid (stepAfterUpdate step .running none none t) }) wid =
      some
        { wf with
          steps := dctSet wf.steps sid (stepAfterUpdate step .running none none t) } :=
    dctGet?_set_eq _ _ _
  rw [execute_step_eq env m wid sid t wf step hwf hstep]
  simp only [hkey, henv]
  rw [stepExcept_eq _ wid sid (.exception msg) (t + 1) _ _ hwfR hstepR]
  refine ⟨rfl, _, dctGet?_set_eq _ _ _, _, dctGet?_set_eq _ _ _, ?_⟩
  have hfail := stepAfterUpdate_failed (stepAfterUpdate step .running none
    none t) msg (t + 1) hmsg
  have hrun := stepAfterUpdate_running step t
  constructor
  · rw [PyErr.message, hfail]
  constructor
  · rw [PyErr.message, hfail]
  constructor
  · rw [PyErr.message, hfail, hrun]
  · rw [PyErr.message, hfail]

/-- Witness for C3 at a concrete always-raising environment. -/
theorem claim_C3_witness :
    (dctGet? fixC3_m.workflows "w" = some fixC3_wf ∧
     dctGet? fixC3_wf.steps "s1" = some fixC3_step ∧
     executorKey? ((dctGet? fixC3_step.outputs "type").getD (.vStr "inline")) =
       some "inline" ∧
     (∀ key s i, (fun (_ : String) (_ : StepStatus) (_ : Dct PyVal) =>
        (.error "boom" : Except String (Dct PyVal))) key s i = .error "boom") ∧
     "boom" ≠ "") ∧
    ((WorkflowExecutor.execute_step (fun _ _ _ => .error "boom") fixC3_m "w"
        "s1" 0).2.2 = some (.exception "boom") ∧
    ∃ wf1, dctGet? (WorkflowExecutor.execute_step (fun _ _ _ => .error "boom")
        fixC3_m "w" "s1" 0).1.workflows "w" = some wf1 ∧
    ∃ s1, dctGet? wf1.steps "s1" = some s1 ∧
      s1.state = .failed ∧ s1.error_message = some "boom" ∧
      s1.retry_count = fixC3_step.retry_count ∧ s1.completed_at = some 1) :=
  ⟨⟨by decide, by decide, by decide, fun _ _ _ => rfl, by decide⟩,
   claim_C3_no_retry (fun _ _ _ => .error "boom") fixC3_m "w" "s1" 0 "boom"
     "inline" fixC3_wf fixC3_step (by decide) (by decide) (by decide)
     (fun _ _ _ => rfl) (by decide)⟩

/-- C10: with the 'type' key absent from a step's recorded outputs,
_execute_step silently dispatches the step to the inline executor — the
step COMPLETES and the inline executor's message lands in its outputs —
while a present but unrecognized type string raises ExecutionError
naming the type and marks the step FAILED. -/
theorem claim_C10_type_dispatch (m : StateManager) (wid sid : String)
    (t : Nat) (wf : WorkflowStatus) (step : StepStatus)
    (hwf : dctGet? m.workflows wid = some wf)
    (hstep : dctGet? wf.steps sid = some step) :
    (dctGet? step.outputs "type" = none →
      (WorkflowExecutor.execute_step codeEnv m wid sid t).2.2 = none ∧
      ∃ wf1, dctGet? (WorkflowExecutor.execute_step codeEnv m wid sid
          t).1.workflows wid = some wf1 ∧
      ∃ s1, dctGet? wf1.steps sid = some s1 ∧ s1.state = .completed ∧
        dctGet? s1.outputs "message" =
          some (.vStr ("执行内联操作 " ++ step.name))) ∧
    (∀ ty, dctGet? step.outputs "type" = some (.vStr ty) →
      ty ≠ "node_operation" → ty ≠ "relationship_operation" →
      ty ≠ "inline" →
      (WorkflowExecutor.execute_step codeEnv m wid sid t).2.2 =
        some (.executionError ("未知的步骤类型: " ++ ty)) ∧
      ∃ wf1, dctGet? (WorkflowExecutor.execute_step codeEnv m wid sid
          t).1.workflows wid = some wf1 ∧
      ∃ s1, dctGet? wf1.steps sid = some s1 ∧ s1.state = .failed ∧
        s1.error_message = some ("未知的步骤类型: " ++ ty)) := by
  have hstepR :
      dctGet? (dctSet wf.steps sid (stepAfterUpdate step .running none none t))
        sid = some (stepAfterUpdate step .running none none t) :=
    dctGet?_set_eq _ _ _
  have hwfR :
      dctGet?
        (dctSet m.workflows wid
          { wf with
            steps := dctSet wf.steps sid (stepAfterUpdate step .running none none t) }) wid =
      some
        { wf with
          steps := dctSet wf.steps sid (stepAfterUpdate step .running none none t) } :=
    dctGet?_set_eq _ _ _
  have hrun := stepAfterUpdate_running step t
  constructor
  · intro htype
    rw [execute_step_eq codeEnv m wid sid t wf step hwf hstep]
    have hk : executorKey? (.vStr "inline") = some "inline" := by decide
    have hc : codeEnv "inline" (stepAfterUpdate step .running none none t)
        wf.inputs = .ok [("result", .vStr "success"),
          ("message", .vStr ("执行内联操作 " ++ step.name))] := by
      rw [hrun]
      rfl
    simp only [htype, Option.getD_none, hk, hc]
    rw [update_step_state_ok _ wid sid .completed none _ (t + 1) _ _ hwfR
      hstepR]
    refine ⟨rfl, _, dctGet?_set_eq _ _ _, _, dctGet?_set_eq _ _ _, ?_, ?_⟩
    · rw [stepAfterUpdate_completed _ _ _ (by simp)]
    · rw [stepAfterUpdate_completed _ _ _ (by simp)]
      show dctGet? (dctUpdate _ _) "message" = _
      rw [hrun]
      show dctGet? (dctSet (dctSet _ "result" _) "message" _) "message" = _
      rw [dctGet?_set_eq]
  · intro ty htype h1 h2 h3
    rw [execute_step_eq codeEnv m wid sid t wf step hwf hstep]
    have hk : executorKey? (.vStr ty) = none := by
      simp [executorKey?, h1, h2, h3]
    simp only [htype, Option.getD_some, hk, pyStrOpt, pyStr]
    rw [stepExcept_eq _ wid sid _ (t + 1) _ _ hwfR hstepR]
    have hmsg : ("未知的步骤类型: " ++ ty) ≠ "" := by
      intro hcon
      have h0 := String.length_append "未知的步骤类型: " ty
      rw [hcon] at h0
      have h1 : ("" : String).length = 0 := rfl
      have h2 : 0 < ("未知的步骤类型: " : String).length := by decide
      omega
    have hfail := stepAfterUpdate_failed (stepAfterUpdate step .running none
      none t) ("未知的步骤类型: " ++ ty) (t + 1) hmsg
    refine ⟨rfl, _, dctGet?_set_eq _ _ _, _, dctGet?_set_eq _ _ _, ?_, ?_⟩
    · rw [PyErr.message, hfail]
    · rw [PyErr.message, hfail]

def fixC10_sa : StepStatus := { id := "a", name := "na", state := .pending }

def fixC10_sb : StepStatus :=
  { id := "b", name := "nb", state := .pending,
    outputs := [("type", .vStr "bogus")] }

def fixC10_wf : WorkflowStatus :=
  { id := "w", name := "w", state := .running, created_at := 0,
    steps := [("a", fixC10_sa), ("b", fixC10_sb)] }

def fixC10_m : StateManager :=
  { workflows := [("w", fixC10_wf)], db := DB.empty }

/-- Witness for C10: a step without a type key completes inline; a step
typed "bogus" fails with ExecutionError. -/
theorem claim_C10_witness :
    (dctGet? fixC10_m.workflows "w" = some fixC10_wf ∧
     dctGet? fixC10_wf.steps "a" = some fixC10_sa) ∧
    ((dctGet? fixC10_sa.outputs "type" = none →
      (WorkflowExecutor.execute_step codeEnv fixC10_m "w" "a" 0).2.2 = none ∧
      ∃ wf1, dctGet? (WorkflowExecutor.execute_step codeEnv fixC10_m "w" "a"
          0).1.workflows "w" = some wf1 ∧
      ∃ s1, dctGet? wf1.steps "a" = some s1 ∧ s1.state = .completed ∧
        dctGet? s1.outputs "message" =
          some (.vStr ("执行内联操作 " ++ fixC10_sa.name))) ∧
    (∀ ty, dctGet? fixC10_sa.outputs "type" = some (.vStr ty) →
      ty ≠ "node_operation" → ty ≠ "relationship_operation" →
      ty ≠ "inline" →
      (WorkflowExecutor.execute_step codeEnv fixC10_m "w" "a" 0).2.2 =
        some (.executionError ("未知的步骤类型: " ++ ty)) ∧
      ∃ wf1, dctGet? (WorkflowExecutor.execute_step codeEnv fixC10_m "w" "a"
          0).1.workflows "w" = some wf1 ∧
      ∃ s1, dctGet? wf1.steps "a" = some s1 ∧ s1.state = .failed ∧
        s1.error_message = some ("未知的步骤类型: " ++ ty))) :=
  ⟨⟨by decide, by decide⟩,
   claim_C10_type_dispatch fixC10_m "w" "a" 0 fixC10_wf fixC10_sa
     (by decide) (by decide)⟩

/-- No step of any cached workflow is SKIPPED. -/
abbrev noSkippedStep (m : StateManager) : Prop :=
  ∀ p ∈ m.workflows, ∀ q ∈ p.2.steps, q.2.state ≠ StepState.skipped

theorem stepAfterUpdate_state (s : StepStatus) (st : StepState)
    (em : Option String) (outs : Option (Dct PyVal)) (now : Nat) :
    (stepAfterUpdate s st em outs now).state = st := by
  rcases outs with _ | o <;> simp only [stepAfterUpdate] <;>
    split_ifs <;> rfl

theorem wfAfterUpdate_steps (wf : WorkflowStatus) (st : WorkflowState)
    (em : Option String) (now : Nat) :
    (wfAfterUpdate wf st em now).steps = wf.steps := by
  simp only [wfAfterUpdate]
  split_ifs <;> rfl

theorem noSkippedW_set (ws : Dct WorkflowStatus) (wid : String)
    (wf1 : WorkflowStatus)
    (h : ∀ p ∈ ws, ∀ q ∈ p.2.steps, q.2.state ≠ StepState.skipped)
    (h1 : ∀ q ∈ wf1.steps, q.2.state ≠ StepState.skipped) :
    ∀ p ∈ dctSet ws wid wf1, ∀ q ∈ p.2.steps,
      q.2.state ≠ StepState.skipped := by
  intro p hp
  rcases mem_dctSet ws wid wf1 p hp with rfl | hp'
  · exact h1
  · exact h p hp'

theorem noSkippedSteps_set (ss : Dct StepStatus) (sid : String)
    (s1 : StepStatus)
    (h : ∀ q ∈ ss, q.2.state ≠ StepState.skipped)
    (h1 : s1.state ≠ StepState.skipped) :
    ∀ q ∈ dctSet ss sid s1, q.2.state ≠ StepState.skipped := by
  intro q hq
  rcases mem_dctSet ss sid s1 q hq with rfl | hq'
  · exact h1
  · exact h q hq'

theorem noSkipped_update_step (m : StateManager) (sf : Option String)
    (wid sid : String) (st : StepState) (em : Option String)
    (outs : Option (Dct PyVal)) (now : Nat) (hst : st ≠ .skipped)
    (h : noSkippedStep m) :
    noSkippedStep (m.update_step_state sf wid sid st em outs now).2 := by
  cases hwf : dctGet? m.workflows wid with
  | none =>
      simp only [StateManager.update_step_state, hwf]
      exact h
  | some wf =>
      cases hstep : dctGet? wf.steps sid with
      | none =>
          simp only [StateManager.update_step_state, hwf, hstep]
          exact h
      | some step0 =>
          have hsteps : ∀ q ∈ wf.steps, q.2.state ≠ StepState.skipped :=
            h _ (dctGet?_mem _ _ _ hwf)
          have hnewsteps := noSkippedSteps_set wf.steps sid
            (stepAfterUpdate step0 st em outs now) hsteps
            (by rw [stepAfterUpdate_state]; exact hst)
          have hcache := noSkippedW_set m.workflows wid
            { wf with
              steps := dctSet wf.steps sid (stepAfterUpdate step0 st em outs now) }
            h hnewsteps
          cases sf with
          | some msg =>
              simp only [StateManager.update_step_state, hwf, hstep]
              exact hcache
          | none =>
              simp only [StateManager.update_step_state, hwf, hstep]
              exact hcache

theorem noSkipped_update_workflow (m : StateManager) (sf : Option String)
    (wid : String) (st : WorkflowState) (em : Option String) (now : Nat)
    (h : noSkippedStep m) :
    noSkippedStep (m.update_workflow_state sf wid st em now).2 := by
  cases hwf : dctGet? m.workflows wid with
  | none =>
      simp only [StateManager.update_workflow_state, hwf]
      exact h
  | some wf =>
      have hsteps : ∀ q ∈ (wfAfterUpdate wf st em now).steps,
          q.2.state ≠ StepState.skipped := by
        rw [wfAfterUpdate_steps]
        exact h _ (dctGet?_mem _ _ _ hwf)
      have hcache := noSkippedW_set m.workflows wid
        (wfAfterUpdate wf st em now) h hsteps
      cases sf with
      | some msg =>
          simp only [StateManager.update_workflow_state, hwf]
          exact hcache
      | none =>
          simp only [StateManager.update_workflow_state, hwf]
          exact hcache

theorem noSkipped_stepExcept (m : StateManager) (wid sid : String)
    (e : PyErr) (t : Nat) (h : noSkippedStep m) :
    noSkippedStep (stepExcept m wid sid e t).1 := by
  have h2 := noSkipped_update_step m none wid sid .failed (some e.message)
    none t (by decide) h
  cases hr : m.update_step_state none wid sid .failed (some e.message)
      none t with
  | mk r1 r2 =>
      rw [hr] at h2
      simp only [stepExcept, hr]
      cases r1 <;> exact h2

theorem noSkipped_wfExcept (m : StateManager) (wid : String) (e : PyErr)
    (t : Nat) (h : noSkippedStep m) :
    noSkippedStep (wfExcept m wid e t).1 := by
  have h2 := noSkipped_update_workflow m none wid .failed (some e.message)
    t h
  cases hr : m.update_workflow_state none wid .failed (some e.message) t with
  | mk r1 r2 =>
      rw [hr] at h2
      simp only [wfExcept, hr]
      cases r1 <;> exact h2

theorem noSkipped_execute_step (env : ExecEnv) (m : StateManager)
    (wid sid : String) (t : Nat) (h : noSkippedStep m) :
    noSkippedStep (WorkflowExecutor.execute_step env m wid sid t).1 := by
  have h1 := noSkipped_update_step m none wid sid .running none none t
    (by decide) h
  cases hr : m.update_step_state none wid sid .running none none t with
  | mk r1 r2 =>
      rw [hr] at h1
      cases r1 with
      | error e =>
          simp only [WorkflowExecutor.execute_step, hr]
          exact h1
      | ok step =>
          simp only [WorkflowExecutor.execute_step, hr]
          cases hg : dctGet? r2.workflows wid with
          | none =>
              simp only [hg]
              exact h1
          | some wf =>
              simp only [hg]
              cases hk : executorKey? ((dctGet? step.outputs "type").getD
                  (.vStr "inline")) with
              | none =>
                  simp only [hk]
                  exact noSkipped_stepExcept _ _ _ _ _ h1
              | some key =>
                  simp only [hk]
                  cases he : env key step wf.inputs with
                  | error msg =>
                      simp only [he]
                      exact noSkipped_stepExcept _ _ _ _ _ h1
                  | ok outs =>
                      simp only [he]
                      have h2 := noSkipped_update_step r2 none wid sid
                        .completed none (some outs) (t + 1) (by decide) h1
                      cases hr2 : r2.update_step_state none wid sid
                          .completed none (some outs) (t + 1) with
                      | mk q1 q2 =>
                          rw [hr2] at h2
                          try simp only [hr2]
                          cases q1 with
                          | ok s2 => exact h2
                          | error e =>
                              exact noSkipped_stepExcept _ _ _ _ _ h2

theorem noSkipped_runBatch (env : ExecEnv) :
    ∀ (batch : List String) (m : StateManager) (wid : String) (t : Nat),
      noSkippedStep m → noSkippedStep (runBatch env batch m wid t).1
  | [], m, wid, t, h => h
  | sid :: rest, m, wid, t, h => by
      simp only [runBatch]
      exact noSkipped_runBatch env rest _ wid _
        (noSkipped_execute_step env m wid sid t h)

theorem noSkipped_execLoop (env : ExecEnv) :
    ∀ (fuel : Nat) (m : StateManager) (wid : String)
      (pending : List String) (t : Nat),
      noSkippedStep m → noSkippedStep (execLoop env fuel m wid pending t).1
  | 0, m, wid, pending, t, h => h
  | fuel + 1, m, wid, pending, t, h => by
      cases pending with
      | nil => exact h
      | cons p ps =>
          simp only [execLoop]
          cases hg : dctGet? m.workflows wid with
          | none =>
              simp only [hg]
              exact h
          | some wf =>
              simp only [hg]
              cases hex : WorkflowExecutor.get_executable_steps wf (p :: ps) with
              | nil =>
                  simp only [hex]
                  exact h
              | cons e es =>
                  simp only [hex]
                  have hb := noSkipped_runBatch env (e :: es) m wid t h
                  cases hr : runBatch env (e :: es) m wid t with
                  | mk r1 rr =>
                      rw [hr] at hb
                      try simp only [hr]
                      obtain ⟨r2, r3⟩ := rr
                      cases r3 with
                      | some err => exact hb
                      | none =>
                          exact noSkipped_execLoop env fuel r1 wid _ r2 hb

theorem noSkipped_execute_workflow_steps (env : ExecEnv) (m : StateManager)
    (wid : String) (t fuel : Nat) (h : noSkippedStep m) :
    noSkippedStep
      (WorkflowExecutor.execute_workflow_steps env m wid t fuel).1 := by
  have h1 := noSkipped_update_workflow m none wid .running none t h
  cases hr : m.update_workflow_state none wid .running none t with
  | mk r1 r2 =>
      rw [hr] at h1
      cases r1 with
      | error e =>
          simp only [WorkflowExecutor.execute_workflow_steps, hr]
          exact h1
      | ok wf =>
          simp only [WorkflowExecutor.execute_workflow_steps, hr]
          have h2 := noSkipped_execLoop env fuel r2 wid
            ((wf.steps.filter (fun kv => kv.2.state == .pending)).map Prod.fst)
            (t + 1) h1
          cases hl : execLoop env fuel r2 wid
              ((wf.steps.filter (fun kv => kv.2.state == .pending)).map
                Prod.fst) (t + 1) with
          | mk l1 ll =>
              rw [hl] at h2
              try simp only [hl]
              obtain ⟨l2, l3⟩ := ll
              cases l3 with
              | some e => exact noSkipped_wfExcept _ _ _ _ h2
              | none =>
                  have h3 := noSkipped_update_workflow l1 none wid .completed
                    none l2 h2
                  cases hc : l1.update_workflow_state none wid .completed
                      none l2 with
                  | mk c1 c2 =>
                      rw [hc] at h3
                      try simp only [hc]
                      cases c1 with
                      | ok a => exact h3
                      | error e => exact noSkipped_wfExcept _ _ _ _ h3

/-- C2 amended: the workflow executor never transitions any step to
SKIPPED: if no cached step is SKIPPED before execute_workflow runs, none
is after. A step blocked by a failed predecessor simply stays PENDING
while the workflow is marked FAILED. -/
theorem claim_C2_never_skipped (env : ExecEnv) (m : StateManager)
    (wid : String) (t fuel : Nat) (h : noSkippedStep m) :
    noSkippedStep (WorkflowExecutor.execute_workflow env m wid t fuel).1 := by
  cases hg : m.get_workflow_status wid with
  | none =>
      simp only [WorkflowExecutor.execute_workflow, hg]
      exact h
  | some wf =>
      by_cases hst : wf.state ≠ .created
      · simp only [WorkflowExecutor.execute_workflow, hg, if_pos hst]
        exact h
      · have h1 := noSkipped_update_workflow m none wid .pending none t h
        cases hr : m.update_workflow_state none wid .pending none t with
        | mk r1 r2 =>
            rw [hr] at h1
            cases r1 with
            | error e =>
                simp only [WorkflowExecutor.execute_workflow, hg,
                           if_neg hst, hr]
                exact h1
            | ok wf1 =>
                simp only [WorkflowExecutor.execute_workflow, hg,
                           if_neg hst, hr]
                have h2 := noSkipped_execute_workflow_steps env r2 wid (t + 1)
                  fuel h1
                cases hs : WorkflowExecutor.execute_workflow_steps env r2 wid
                    (t + 1) fuel with
                | mk s1 ss =>
                    rw [hs] at h2
                    try simp only [hs]
                    obtain ⟨s2, s3⟩ := ss
                    cases s3 with
                    | none => exact h2
                    | some e =>
                        have h3 := noSkipped_update_workflow s1 none wid
                          .failed (some e.message) s2 h2
                        cases hf : s1.update_workflow_state none wid .failed
                            (some e.message) s2 with
                        | mk f1 f2 =>
                            rw [hf] at h3
                            try simp only [hf]
                            cases f1 <;> exact h3

def fixC2_s1 : StepStatus :=
  { id := "s1", name := "s1", state := .pending,
    outputs := [("on_success", strList ["s2"])] }

def fixC2_s2 : StepStatus := { id := "s2", name := "s2", state := .pending }

def fixC2_wf : WorkflowStatus :=
  { id := "w", name := "w", state := .created, created_at := 0,
    steps := [("s1", fixC2_s1), ("s2", fixC2_s2)] }

def fixC2_m : StateManager :=
  { workflows := [("w", fixC2_wf)], db := DB.empty }

def fixC2_env : ExecEnv := fun _ step _ =>
  if step.id = "s1" then .error "crash" else .ok []

/-- C2 counterexample: s2 is reachable only via on_success from s1 and
s1 ends FAILED, yet the executor leaves s2 PENDING (it is never
transitioned to SKIPPED) and marks the workflow FAILED — both outcomes
the claim rules out. -/
theorem claim_C2_counterexample :
    ((WorkflowExecutor.execute_workflow fixC2_env fixC2_m "w" 0
        5).1.get_workflow_status "w").map (fun wf =>
      (wf.state, (dctGet? wf.steps "s1").map StepStatus.state,
        (dctGet? wf.steps "s2").map StepStatus.state)) =
      some (.failed, some .failed, some .pending) := by decide

/-- Witness for C2's amended theorem at the counterexample scenario. -/
theorem claim_C2_witness :
    noSkippedStep fixC2_m ∧
    noSkippedStep
      (WorkflowExecutor.execute_workflow fixC2_env fixC2_m "w" 0 5).1 :=
  ⟨by decide, claim_C2_never_skipped fixC2_env fixC2_m "w" 0 5 (by decide)⟩

end A4C
